import Mathlib

/-!
Verification development for the Blogia blogging client.

The definitions below are a shallow embedding of the TypeScript sources:

* `src/lib/security.ts`     — sanitizers, validators, client-side rate limiter
* `src/lib/errorHandler.ts` — error taxonomy and mapping
* `src/lib/supabase.ts`     — backend client wrapper, `withTimeout`
* `src/lib/postService.ts`  — domain services (two variants exist in the
  repository: the plain one under `src/lib/postService.ts` is embedded in
  namespace `PostServiceV1`, the hardened one (rate limiting, configuration
  checks, timeout wrapping, error swallowing on decorative reads) in
  namespace `PostService`)
* `src/pages/PostEditor.tsx` — the editor save routine (input construction)
* `src/store/slices/authSlice.ts` and `src/App.tsx` — auth state reducer and
  the bootstrap effect with its failsafe timer

JavaScript strings are modelled as `String`/`List Char` (the sources only
manipulate them at character granularity), numbers holding millisecond
timestamps, counts and sizes as `Nat`, and `Date.now()` as an explicit `now`
parameter.  `undefined`/`null` become `Option`, thrown exceptions become
`Except`.  Effects (console logging, the dev/prod flag, wall-clock `Date`
construction) are irrelevant to data flow and are dropped.
-/

/-! ## Character classes (JS `\s`, `\w`, hex digits)

JS `\s` additionally matches some rare Unicode spaces; the sources only ever
meet ASCII whitespace, which is what we model. -/

def isWsChar (c : Char) : Bool :=
  c = ' ' || c = '\t' || c = '\n' || c = '\r' || c = '\x0b' || c = '\x0c'

def isWordChar (c : Char) : Bool :=
  ('a' ≤ c && c ≤ 'z') || ('A' ≤ c && c ≤ 'Z') || ('0' ≤ c && c ≤ '9') || c = '_'

def isLowerHexDigit (c : Char) : Bool :=
  ('0' ≤ c && c ≤ '9') || ('a' ≤ c && c ≤ 'f')

/-! ## JS string primitives -/

/-- `String.prototype.replace(/c/g, rep)` for a single-character pattern:
every occurrence of `c` is replaced by `rep`. -/
def jsReplaceChar (c : Char) (rep : List Char) (cs : List Char) : List Char :=
  cs.flatMap (fun x => if x = c then rep else [x])

/-- Case-insensitive prefix test: does `l` start with `pat` (compared after
lowercasing)?  `pat` is supplied already lowercased. -/
def ciHasPrefix (pat l : List Char) : Bool :=
  (l.take pat.length).map Char.toLower == pat

/-- `String.prototype.replace(/pat/gi, rep)` for a literal pattern `pat`
(supplied lowercased, nonempty): left-to-right scan, non-overlapping, the
scan continues after each replacement without rescanning it.  The scan
advances at least one character per step, so with `fuel` at least the
input length the fuel-out branch (which returns the rest unscanned) is
never taken; recursion on `fuel` keeps the function kernel-reducible. -/
def replaceAllCIFuel (pat rep : List Char) : Nat → List Char → List Char
  | _, [] => []
  | 0, l => l
  | fuel + 1, c :: cs =>
    if pat ≠ [] ∧ ciHasPrefix pat (c :: cs) then
      rep ++ replaceAllCIFuel pat rep fuel ((c :: cs).drop pat.length)
    else
      c :: replaceAllCIFuel pat rep fuel cs

def replaceAllCI (pat rep l : List Char) : List Char :=
  replaceAllCIFuel pat rep l.length l

/-- Generic driver for `String.prototype.replace(/re/g, rep)` given a
matcher `m` that reports the length of a match starting at the current
position.  The matchers used below never return `some 0`; the `1 ≤ n`
guard and the fuel (never exhausted for `fuel ≥` input length) only keep
the scan well-defined and kernel-reducible. -/
def replaceMatchesFuel (m : List Char → Option Nat) (rep : List Char) :
    Nat → List Char → List Char
  | _, [] => []
  | 0, l => l
  | fuel + 1, c :: cs =>
    match m (c :: cs) with
    | some n =>
      if 1 ≤ n then
        rep ++ replaceMatchesFuel m rep fuel ((c :: cs).drop n)
      else
        c :: replaceMatchesFuel m rep fuel cs
    | none => c :: replaceMatchesFuel m rep fuel cs

def replaceMatches (m : List Char → Option Nat) (rep l : List Char) : List Char :=
  replaceMatchesFuel m rep l.length l

/-- JS `String.prototype.trim()`: strip leading and trailing whitespace. -/
def jsTrimChars (cs : List Char) : List Char :=
  ((cs.dropWhile isWsChar).reverse.dropWhile isWsChar).reverse

def jsTrim (s : String) : String := ⟨jsTrimChars s.data⟩

/-- `String.prototype.split(/\s+/)`: segments between maximal whitespace
runs.  A leading (resp. trailing) run yields a leading (resp. trailing)
empty segment, and splitting the empty string yields one empty segment,
exactly as in JS.  `inSep` records whether the previous character belonged
to the current separator run. -/
def splitWsAux : List Char → List Char → Bool → List (List Char)
  | [], cur, _ => [cur.reverse]
  | c :: cs, cur, inSep =>
    if isWsChar c then
      if inSep then splitWsAux cs cur true
      else cur.reverse :: splitWsAux cs [] true
    else
      splitWsAux cs (c :: cur) false

def jsSplitWs (s : String) : List (List Char) := splitWsAux s.data [] false

/-- Substring test (used to embed `String.prototype.includes`). -/
def containsSub (sub cs : List Char) : Bool :=
  cs.tails.any (fun t => (t.take sub.length) == sub)

def jsIncludes (s sub : String) : Bool := containsSub sub.data s.data

def jsToLower (s : String) : String := ⟨s.data.map Char.toLower⟩

/-! ## `src/lib/security.ts` -/

namespace SecurityConfig

def MAX_CONTENT_LENGTH : Nat := 50000
def MAX_COMMENT_LENGTH : Nat := 2000
def MAX_TITLE_LENGTH : Nat := 200
def MAX_EXCERPT_LENGTH : Nat := 500
def MAX_NAME_LENGTH : Nat := 100
def RATE_LIMIT_WINDOW_MS : Nat := 60000
def RATE_LIMIT_MAX_REQUESTS : Nat := 30
def ALLOWED_IMAGE_TYPES : List String := ["image/jpeg", "image/png", "image/gif", "image/webp"]
def MAX_IMAGE_SIZE : Nat := 5 * 1024 * 1024

end SecurityConfig

/-- The six sequential `replace` calls of `sanitizeHtml`, at character
level. -/
def sanitizeHtmlChars (cs : List Char) : List Char :=
  jsReplaceChar '/' "&#x2F;".data
    (jsReplaceChar '\x27' "&#x27;".data
      (jsReplaceChar '"' "&quot;".data
        (jsReplaceChar '>' "&gt;".data
          (jsReplaceChar '<' "&lt;".data
            (jsReplaceChar '&' "&amp;".data cs)))))

/-- `sanitizeHtml` (security.ts): sequentially encode dangerous characters.
The empty-string early return mirrors the JS falsiness check on `input`. -/
def sanitizeHtml (input : String) : String :=
  if input = "" then "" else ⟨sanitizeHtmlChars input.data⟩

/-- Matcher for `/<script\b[^<]*(?:(?!<\/script>)<[^<]*)*<\/script>/gi`
from the current position: after the opening `<script` (word boundary
enforced), non-`<` characters are skipped, and at each subsequent `<` the
scan either closes on `</script>` or consumes that `<` run.  Returns the
matched length.  -/
def scanScriptCloseFuel : Nat → List Char → Option Nat
  | _, [] => none
  | 0, _ => none
  | fuel + 1, c :: cs =>
    if ciHasPrefix "</script>".data (c :: cs) then
      some 9
    else
      let k := 1 + (cs.takeWhile (fun x => x ≠ '<')).length
      (scanScriptCloseFuel fuel ((c :: cs).drop k)).map (fun n => k + n)

def scanScriptClose (l : List Char) : Option Nat :=
  scanScriptCloseFuel l.length l

def matchScriptTag (l : List Char) : Option Nat :=
  if ciHasPrefix "<script".data l then
    let rest := l.drop 7
    let boundary : Bool := match rest with
      | [] => true
      | c :: _ => !isWordChar c
    if boundary then
      let n1 := (rest.takeWhile (fun x => x ≠ '<')).length
      (scanScriptClose (rest.drop n1)).map (fun n => 7 + n1 + n)
    else none
  else none

/-- Matcher for `/on\w+\s*=\s*["'][^"']*["']/gi` from the current
position.  The greedy quantifiers here never need backtracking because the
character classes of adjacent pieces are disjoint. -/
def matchEventHandler (l : List Char) : Option Nat :=
  match l with
  | c1 :: c2 :: rest =>
    if c1.toLower = 'o' && c2.toLower = 'n' then
      let w := (rest.takeWhile isWordChar).length
      if w = 0 then none else
        let r2 := rest.drop w
        let s1 := (r2.takeWhile isWsChar).length
        match r2.drop s1 with
        | '=' :: r3 =>
          let s2 := (r3.takeWhile isWsChar).length
          match r3.drop s2 with
          | q :: r4 =>
            if q = '"' || q = '\x27' then
              let b := (r4.takeWhile (fun x => x ≠ '"' && x ≠ '\x27')).length
              match r4.drop b with
              | q2 :: _ =>
                if q2 = '"' || q2 = '\x27' then
                  some (2 + w + s1 + 1 + s2 + 1 + b + 1)
                else none
              | [] => none
            else none
          | [] => none
        | _ => none
    else none
  | _ => none

/-- `sanitizeRichText` (security.ts): strip script blocks, inline event
handlers, `javascript:` and rewrite `data:` URI schemes. -/
def sanitizeRichText (input : String) : String :=
  if input = "" then "" else
    ⟨replaceAllCI "data:".data "data-blocked:".data
      (replaceAllCI "javascript:".data []
        (replaceMatches matchEventHandler []
          (replaceMatches matchScriptTag [] input.data)))⟩

/-- `isValidUUID` (security.ts): v1–v5 UUID shape, case-insensitive. -/
def isValidUUID (uuid : String) : Bool :=
  let cs := uuid.data.map Char.toLower
  let seg1 := cs.take 8
  let r1 := cs.drop 8
  let seg2 := r1.drop 1 |>.take 4
  let r2 := r1.drop 5
  let seg3 := r2.drop 1 |>.take 4
  let r3 := r2.drop 5
  let seg4 := r3.drop 1 |>.take 4
  let r4 := r3.drop 5
  let seg5 := r4.drop 1 |>.take 12
  cs.length = 36 &&
  seg1.all isLowerHexDigit &&
  r1.take 1 == ['-'] &&
  seg2.all isLowerHexDigit &&
  r2.take 1 == ['-'] &&
  (match seg3 with
   | v :: t => ('1' ≤ v && v ≤ '5') && t.all isLowerHexDigit
   | [] => false) &&
  r3.take 1 == ['-'] &&
  (match seg4 with
   | v :: t => (v = '8' || v = '9' || v = 'a' || v = 'b') && t.all isLowerHexDigit
   | [] => false) &&
  r4.take 1 == ['-'] &&
  seg5.all isLowerHexDigit

/-! ### Rate limiter (security.ts)

`rateLimitStore` is a module-level `Map`; we model it as a lookup function
and pass it (and `Date.now()`) explicitly. -/

structure RateRecord where
  count : Nat
  resetTime : Nat
deriving DecidableEq, Repr

def RateStore : Type := String → Option RateRecord

structure RateLimitResult where
  allowed : Bool
  retryAfter : Option Nat
deriving DecidableEq, Repr

def RateStore.set (store : RateStore) (key : String) (r : RateRecord) : RateStore :=
  fun k => if k = key then some r else store k

/-- `checkRateLimit` (security.ts): fixed-window limiter.  Returns the
result together with the updated store (the JS function mutates the map in
place).  `Math.ceil((resetTime - now) / 1000)` becomes ceiling division on
`Nat` (in the denied branch `now ≤ resetTime` holds). -/
def checkRateLimit (store : RateStore) (identifier : String) (now : Nat) :
    RateLimitResult × RateStore :=
  match store identifier with
  | none =>
    (⟨true, none⟩, store.set identifier ⟨1, now + SecurityConfig.RATE_LIMIT_WINDOW_MS⟩)
  | some record =>
    if now > record.resetTime then
      (⟨true, none⟩, store.set identifier ⟨1, now + SecurityConfig.RATE_LIMIT_WINDOW_MS⟩)
    else if record.count ≥ SecurityConfig.RATE_LIMIT_MAX_REQUESTS then
      (⟨false, some ((record.resetTime - now + 999) / 1000)⟩, store)
    else
      (⟨true, none⟩, store.set identifier ⟨record.count + 1, record.resetTime⟩)

/-- `cleanupRateLimitStore` (security.ts): drop every record whose window
has expired at time `now`. -/
def cleanupRateLimitStore (store : RateStore) (now : Nat) : RateStore :=
  fun k => match store k with
    | some r => if now > r.resetTime then none else some r
    | none => none

/-! ## `src/lib/errorHandler.ts` -/

inductive ErrorCode where
  | NETWORK_ERROR
  | AUTHENTICATION_ERROR
  | AUTHORIZATION_ERROR
  | VALIDATION_ERROR
  | NOT_FOUND
  | RATE_LIMITED
  | SERVER_ERROR
  | UNKNOWN_ERROR
  | CONFIGURATION_ERROR
deriving DecidableEq, Repr

/-- The shape of values thrown by / returned from the backend SDK and by
`withTimeout` (`isErrorInstance` records whether the value is a JS `Error`
instance, as tested by `instanceof` in `handleError`). -/
structure BackendError where
  isErrorInstance : Bool
  code : Option String
  status : Option String
  message : Option String
  errorDescription : Option String
deriving DecidableEq, Repr

/-- A JS `Error` as rejected by the `withTimeout` timer. -/
def BackendError.ofError (msg : String) : BackendError :=
  ⟨true, none, none, some msg, none⟩

/-- `AppError` (errorHandler.ts); the `timestamp`/`originalError` fields are
effectful (wall clock, dev-only) and dropped. -/
structure AppError where
  code : ErrorCode
  message : String
  userMessage : String
deriving DecidableEq, Repr

/-- JS `a || b` on possibly-undefined strings (empty string is falsy). -/
def jsOrOpt (a b : Option String) : Option String :=
  match a with
  | some s => if s = "" then b else some s
  | none => b

/-- JS `a || b` with a string fallback. -/
def jsOrStr (a : Option String) (b : String) : String :=
  match a with
  | some s => if s = "" then b else s
  | none => b

/-- `mapSupabaseErrorCode` (errorHandler.ts). -/
def mapSupabaseErrorCode (error : BackendError) : ErrorCode :=
  let code := jsOrOpt error.code error.status
  let message := jsToLower (jsOrStr error.message "")
  if code = some "invalid_credentials" || jsIncludes message "invalid login credentials" then
    .AUTHENTICATION_ERROR
  else if code = some "user_not_found" || code = some "22P02" then
    .NOT_FOUND
  else if code = some "PGRST301" || code = some "401" || jsIncludes message "jwt" then
    .AUTHENTICATION_ERROR
  else if code = some "PGRST204" || code = some "403" || jsIncludes message "permission" then
    .AUTHORIZATION_ERROR
  else if code = some "PGRST116" then
    .NOT_FOUND
  else if code = some "429" || jsIncludes message "rate limit" then
    .RATE_LIMITED
  else if code = some "23505" || jsIncludes message "duplicate" || jsIncludes message "unique" then
    .VALIDATION_ERROR
  else if (match code with | some c => c.startsWith "5" | none => false)
      || jsIncludes message "server error" then
    .SERVER_ERROR
  else if jsIncludes message "network" || jsIncludes message "fetch" then
    .NETWORK_ERROR
  else
    .UNKNOWN_ERROR

/-- `getUserMessage` (errorHandler.ts). -/
def getUserMessage (code : ErrorCode) (context : Option String) : String :=
  match code with
  | .NETWORK_ERROR => "Unable to connect to the server. Please check your internet connection."
  | .AUTHENTICATION_ERROR => "Invalid email or password. Please try again."
  | .AUTHORIZATION_ERROR => "You do not have permission to perform this action."
  | .VALIDATION_ERROR => "The data provided is invalid. Please check your input."
  | .NOT_FOUND =>
    match context with
    | some c => "The " ++ c ++ " was not found."
    | none => "The requested resource was not found."
  | .RATE_LIMITED => "Too many requests. Please wait a moment and try again."
  | .SERVER_ERROR => "Something went wrong on our end. Please try again later."
  | .UNKNOWN_ERROR => "An unexpected error occurred. Please try again."
  | .CONFIGURATION_ERROR => "The application is not properly configured. Please contact support."

/-- `handleError` (errorHandler.ts).  The thrown value is always one of the
object shapes covered by `BackendError`; the primitive-throw fall-through
(strings/numbers) never occurs in this codebase. -/
def handleError (error : BackendError) (context : Option String) : AppError :=
  if error.isErrorInstance then
    if error.code.isSome || error.status.isSome then
      let c := mapSupabaseErrorCode error
      { code := c, message := jsOrStr error.message "", userMessage := getUserMessage c context }
    else
      { code := .UNKNOWN_ERROR
        message := jsOrStr error.message ""
        userMessage := getUserMessage .UNKNOWN_ERROR none }
  else
    let c := mapSupabaseErrorCode error
    { code := c
      message := jsOrStr (jsOrOpt error.message error.errorDescription) "Unknown error"
      userMessage := getUserMessage c context }

/-- `createAppError` (errorHandler.ts). -/
def createAppError (code : ErrorCode) (message : String) (context : Option String) : AppError :=
  { code := code, message := message, userMessage := getUserMessage code context }

/-! ## `src/lib/supabase.ts` -/

/-- `isValidUrl` (supabase.ts): defined, truthy, `https://` scheme, on a
`.supabase.co` domain. -/
def isValidSupabaseUrl (url : Option String) : Bool :=
  match url with
  | some u => u ≠ "" && u.startsWith "https://" && jsIncludes u ".supabase.co"
  | none => false

/-- `isValidKey` (supabase.ts). -/
def isValidSupabaseKey (key : Option String) : Bool :=
  match key with
  | some k => k ≠ "" && k.length > 20
  | none => false

/-- `isSupabaseConfigured` (supabase.ts), as a function of the two
environment values. -/
def isSupabaseConfiguredOf (url key : Option String) : Bool :=
  isValidSupabaseUrl url && isValidSupabaseKey key

/-- The constructed SDK client handle: the target URL and key it was
created with.  (`createClient` never returns null.) -/
structure SupabaseClientHandle where
  url : String
  anonKey : String
deriving DecidableEq, Repr

def placeholderUrl : String := "https://placeholder.supabase.co"
def placeholderKey : String := "placeholder-key"

/-- The module-level `supabaseClient` assignment (supabase.ts): a real
client under valid configuration, a placeholder-endpoint client otherwise. -/
def mkSupabaseClient (url key : Option String) : SupabaseClientHandle :=
  if isSupabaseConfiguredOf url key then
    { url := jsOrStr url "", anonKey := jsOrStr key "" }
  else
    { url := placeholderUrl, anonKey := placeholderKey }

/-! ### `withTimeout` (supabase.ts)

`Promise.race` is modelled by its observable outcome: which of the two
promises settles first, and — when it is the operation — the operation's
result.  The JS defaults are `timeoutMs = 10000`, `operation = 'Operation'`. -/

inductive RaceWinner (α : Type) where
  | timer
  | op (result : Except BackendError α)

/-- The timer's rejection message: `` `${operation} timed out after ${timeoutMs}ms` ``. -/
def timeoutMessage (operation : String) (timeoutMs : Nat) : String :=
  operation ++ " timed out after " ++ toString timeoutMs ++ "ms"

/-- `withTimeout` (supabase.ts). -/
def withTimeout (w : RaceWinner α) (timeoutMs : Nat) (operation : String) :
    Except BackendError α :=
  match w with
  | .timer => .error (BackendError.ofError (timeoutMessage operation timeoutMs))
  | .op r => r

/-- `sub` occurs verbatim inside `s`. -/
def StrContains (s sub : String) : Prop :=
  ∃ pre post, s = pre ++ sub ++ post

/-! ## Domain and row shapes (`src/types/blog.ts`, backend rows)

`Date` values are kept as their raw backend strings (`new Date(...)` is a
pure reinterpretation the claims never inspect). -/

structure ProfileRow where
  id : String
  email : String
  name : String
  avatar : Option String
  created_at : String
deriving DecidableEq, Repr

structure User where
  id : String
  email : String
  name : String
  avatar : Option String
  createdAt : String
deriving DecidableEq, Repr

structure PostRow where
  id : String
  title : String
  content : String
  excerpt : String
  featured_image : Option String
  author_id : String
  published : Bool
  read_time : Nat
  created_at : String
  updated_at : String
  author : Option ProfileRow
  author_profile : Option ProfileRow
deriving DecidableEq, Repr

structure Post where
  id : String
  title : String
  content : String
  excerpt : String
  featuredImage : Option String
  authorId : String
  author : Option User
  published : Bool
  readTime : Nat
  createdAt : String
  updatedAt : String
deriving DecidableEq, Repr

structure CommentRow where
  id : String
  post_id : String
  user_id : String
  content : String
  created_at : String
  updated_at : String
  profiles : Option ProfileRow
deriving DecidableEq, Repr

structure Comment where
  id : String
  postId : String
  userId : String
  content : String
  user : Option User
  createdAt : String
  updatedAt : String
deriving DecidableEq, Repr

structure CreatePostInput where
  title : String
  content : String
  excerpt : String
  featuredImage : Option String
  published : Bool
deriving DecidableEq, Repr

structure UpdatePostInput where
  id : String
  title : Option String
  content : Option String
  excerpt : Option String
  featuredImage : Option String
  published : Option Bool
deriving DecidableEq, Repr

structure CreateCommentInput where
  postId : String
  content : String
deriving DecidableEq, Repr

structure UserStats where
  totalLikes : Nat
  totalComments : Nat
  totalShares : Nat
  publishedCount : Nat
deriving DecidableEq, Repr

/-- A JS file object (`File`): the fields the validators read. -/
structure FileModel where
  name : String
  type : String
  size : Nat
deriving DecidableEq, Repr

/-! ## Input validators (`src/lib/security.ts`, continued) -/

structure PostInputFields where
  title : Option String
  content : Option String
  excerpt : Option String
deriving DecidableEq, Repr

structure PostValidation where
  valid : Bool
  errors : List String
  sanitized : PostInputFields
deriving DecidableEq, Repr

/-- `validatePostInput` (security.ts). -/
def validatePostInput (input : PostInputFields) : PostValidation :=
  let titleErrors : List String :=
    match input.title with
    | none => []
    | some t =>
      if t.length = 0 then ["Title is required"]
      else if t.length > SecurityConfig.MAX_TITLE_LENGTH then
        ["Title must not exceed " ++ toString SecurityConfig.MAX_TITLE_LENGTH ++ " characters"]
      else []
  let contentErrors : List String :=
    match input.content with
    | none => []
    | some c =>
      if c.length = 0 then ["Content is required"]
      else if c.length > SecurityConfig.MAX_CONTENT_LENGTH then
        ["Content must not exceed " ++ toString SecurityConfig.MAX_CONTENT_LENGTH ++ " characters"]
      else []
  let excerptErrors : List String :=
    match input.excerpt with
    | none => []
    | some e =>
      if e.length > SecurityConfig.MAX_EXCERPT_LENGTH then
        ["Excerpt must not exceed " ++ toString SecurityConfig.MAX_EXCERPT_LENGTH ++ " characters"]
      else []
  let errors := titleErrors ++ contentErrors ++ excerptErrors
  { valid := errors.isEmpty
    errors := errors
    sanitized :=
      { title := input.title.map sanitizeHtml
        content := input.content.map sanitizeRichText
        excerpt := input.excerpt.map sanitizeHtml } }

structure CommentValidation where
  valid : Bool
  errors : List String
  sanitized : String
deriving DecidableEq, Repr

/-- `validateCommentInput` (security.ts). -/
def validateCommentInput (content : String) : CommentValidation :=
  let errors : List String :=
    if content = "" || jsTrim content = "" then ["Comment content is required"]
    else if content.length > SecurityConfig.MAX_COMMENT_LENGTH then
      ["Comment must not exceed " ++ toString SecurityConfig.MAX_COMMENT_LENGTH ++ " characters"]
    else []
  { valid := errors.isEmpty, errors := errors, sanitized := sanitizeHtml content }

/-- `name.split('.')`, keeping empty segments, as JS does. -/
def jsSplitOnDot : List Char → List (List Char)
  | [] => [[]]
  | c :: cs =>
    if c = '.' then [] :: jsSplitOnDot cs
    else
      match jsSplitOnDot cs with
      | [] => [[c]]
      | t :: ts => (c :: t) :: ts

/-- `validExtensions[type]` (security.ts `validateImageFile`). -/
def validExtensionsFor (t : String) : Option (List String) :=
  if t = "image/jpeg" then some ["jpg", "jpeg"]
  else if t = "image/png" then some ["png"]
  else if t = "image/gif" then some ["gif"]
  else if t = "image/webp" then some ["webp"]
  else none

/-- `validateImageFile` (security.ts). -/
def validateImageFile (file : FileModel) : Bool × List String :=
  let typeErrors : List String :=
    if SecurityConfig.ALLOWED_IMAGE_TYPES.contains file.type then []
    else ["Invalid file type. Allowed types: " ++
      String.intercalate ", " SecurityConfig.ALLOWED_IMAGE_TYPES]
  let sizeErrors : List String :=
    if file.size > SecurityConfig.MAX_IMAGE_SIZE then
      ["File size exceeds " ++ toString (SecurityConfig.MAX_IMAGE_SIZE / (1024 * 1024)) ++ "MB limit"]
    else []
  let extension : String :=
    jsToLower ⟨((jsSplitOnDot file.name.data).getLast?).getD []⟩
  let extErrors : List String :=
    if extension ≠ "" &&
        !(((validExtensionsFor file.type).map (fun l => l.contains extension)).getD false) then
      ["File extension does not match content type"]
    else []
  let errors := typeErrors ++ sizeErrors ++ extErrors
  (errors.isEmpty, errors)

/-! ## `src/lib/postService.ts` — shared pieces

Both service variants share `calculateReadTime`, `mapPostFromDB` and
`mapCommentFromDB` verbatim. -/

/-- `calculateReadTime` (postService.ts):
`Math.max(1, Math.ceil(content.trim().split(/\s+/).length / 200))`. -/
def calculateReadTime (content : String) : Nat :=
  let wordsPerMinute := 200
  let words := (jsSplitWs (jsTrim content)).length
  max 1 ((words + (wordsPerMinute - 1)) / wordsPerMinute)

def userOfProfile (p : ProfileRow) : User :=
  { id := p.id, email := p.email, name := p.name, avatar := p.avatar, createdAt := p.created_at }

/-- The `author` object spread into the row by `createPost` is already a
camelCase `User`; `mapPostFromDB` then reads its (absent) `created_at`
field, so the mapped author's `createdAt` is JS `Invalid Date`, modelled as
`""`. -/
def profileOfUser (u : User) : ProfileRow :=
  { id := u.id, email := u.email, name := u.name, avatar := u.avatar, created_at := "" }

/-- `mapPostFromDB` (postService.ts). -/
def mapPostFromDB (dbPost : PostRow) : Post :=
  let authorData := dbPost.author.or dbPost.author_profile
  { id := dbPost.id
    title := dbPost.title
    content := dbPost.content
    excerpt := dbPost.excerpt
    featuredImage := dbPost.featured_image
    authorId := dbPost.author_id
    author := authorData.map userOfProfile
    published := dbPost.published
    readTime := dbPost.read_time
    createdAt := dbPost.created_at
    updatedAt := dbPost.updated_at }

/-- `mapCommentFromDB` (postService.ts). -/
def mapCommentFromDB (dbComment : CommentRow) : Comment :=
  { id := dbComment.id
    postId := dbComment.post_id
    userId := dbComment.user_id
    content := dbComment.content
    user := dbComment.profiles.map userOfProfile
    createdAt := dbComment.created_at
    updatedAt := dbComment.updated_at }

/-- A settled supabase SDK call: the `{ data, error }` pair it resolved
with. -/
structure SupaResp (α : Type) where
  data : α
  error : Option BackendError
deriving DecidableEq, Repr

/-- The observable outcome of awaiting a (possibly timeout-wrapped)
backend call: `Except.error` is a rejection (e.g. the `withTimeout` timer
fired), `Except.ok` the settled `{ data, error }` response. -/
abbrev SupaOutcome (α : Type) := Except BackendError (SupaResp α)

/-- `profileMap.get` on a map built by repeated `set` (last write wins). -/
def lookupProfile (profiles : List ProfileRow) (id : String) : Option ProfileRow :=
  profiles.reverse.find? (fun p => p.id = id)

/-- Row shape handed to `.insert` by `createPost`. -/
structure PostInsertRow where
  title : Option String
  content : Option String
  excerpt : Option String
  featured_image : Option String
  author_id : String
  published : Bool
  read_time : Nat
deriving DecidableEq, Repr

/-- `updates` record assembled by `updatePost` (absent fields are left
out of the JS object). -/
structure PostUpdates where
  id : String
  title : Option String
  content : Option String
  read_time : Option Nat
  excerpt : Option String
  featured_image : Option (Option String)
  published : Option Bool
deriving DecidableEq, Repr

/-- `` `Retry after ${rateLimitCheck.retryAfter} seconds` `` — the field is
always set on a denied result, but JS would print `undefined` otherwise. -/
def retryAfterText (r : RateLimitResult) : String :=
  match r.retryAfter with
  | some n => toString n
  | none => "undefined"

/-! ## Hardened service variant (timeout-wrapped, validated; the file whose
on-disk name is unknown — `src/unnamed/part_011`)

Every operation takes the module-level state it reads (`rateLimitStore`
contents and `Date.now()` where it rate-limits, the `isSupabaseConfigured`
flag) and the outcome of each backend call it would issue, in program
order.  Since the rate-limit map mutation is irrelevant to every claim
below, operations return only their `Except` result. -/

namespace PostService

/-- `uploadImage`.  `publicUrl` is the value `getPublicUrl` yields for the
generated file name (a pure SDK string computation). -/
def uploadImage (store : RateStore) (now : Nat) (file : FileModel) (configured : Bool)
    (upload : SupaOutcome Unit) (publicUrl : String) : Except AppError String :=
  if !configured then
    .error (createAppError .CONFIGURATION_ERROR "Storage service is not configured" none)
  else
    let rateLimitCheck := (checkRateLimit store "upload" now).1
    if !rateLimitCheck.allowed then
      .error (createAppError .RATE_LIMITED
        ("Upload rate limited. Retry after " ++ retryAfterText rateLimitCheck ++ " seconds") none)
    else
      let validation := validateImageFile file
      if !validation.1 then
        .error (createAppError .VALIDATION_ERROR (String.intercalate ", " validation.2) none)
      else
        match upload with
        | .error e => .error (handleError e (some "image upload"))
        | .ok ⟨_, some uploadError⟩ => .error (handleError uploadError (some "image upload"))
        | .ok ⟨_, none⟩ => .ok publicUrl

/-- `getAllPosts`.  A failed author-profiles fetch that settles with an
error field is only logged; a rejected (timed-out) one propagates into the
catch. -/
def getAllPosts (publishedOnly : Bool) (configured : Bool)
    (posts : SupaOutcome (Option (List PostRow)))
    (profiles : SupaOutcome (Option (List ProfileRow))) : Except AppError (List Post) :=
  if !configured then .ok []
  else
    match posts with
    | .error e => .error (handleError e (some "posts"))
    | .ok ⟨_, some err⟩ => .error (handleError err (some "posts"))
    | .ok ⟨data, none⟩ =>
      match profiles with
      | .error e => .error (handleError e (some "posts"))
      | .ok ⟨profileData, _profilesError⟩ =>
        let profileList := profileData.getD []
        .ok ((data.getD []).map (fun p =>
          mapPostFromDB { p with author_profile := lookupProfile profileList p.author_id }))

/-- `getPostById`. -/
def getPostById (id : String) (configured : Bool)
    (post : SupaOutcome (Option PostRow))
    (profile : SupaOutcome (Option ProfileRow)) : Except AppError (Option Post) :=
  if !isValidUUID id then
    .error (createAppError .VALIDATION_ERROR "Invalid post ID format" none)
  else if !configured then .ok none
  else
    match post with
    | .error e => .error (handleError e (some "post"))
    | .ok ⟨_, some err⟩ => .error (handleError err (some "post"))
    | .ok ⟨none, none⟩ => .ok none
    | .ok ⟨some row, none⟩ =>
      match profile with
      | .error e => .error (handleError e (some "post"))
      | .ok ⟨authorProfile, _⟩ =>
        .ok (some (mapPostFromDB { row with author_profile := authorProfile }))

/-- `getPostsByAuthor`. -/
def getPostsByAuthor (authorId : String) (configured : Bool)
    (posts : SupaOutcome (Option (List PostRow))) : Except AppError (List Post) :=
  if !isValidUUID authorId then
    .error (createAppError .VALIDATION_ERROR "Invalid author ID format" none)
  else if !configured then .ok []
  else
    match posts with
    | .error e => .error (handleError e (some "author posts"))
    | .ok ⟨_, some err⟩ => .error (handleError err (some "author posts"))
    | .ok ⟨data, none⟩ => .ok ((data.getD []).map mapPostFromDB)

/-- `createPost`.  The backend call is a function of the inserted row so
that an echoing backend can be instantiated. -/
def createPost (store : RateStore) (now : Nat) (input : CreatePostInput)
    (authorId : String) (author : User) (configured : Bool)
    (backend : PostInsertRow → SupaOutcome PostRow) : Except AppError Post :=
  if !isValidUUID authorId then
    .error (createAppError .VALIDATION_ERROR "Invalid author ID" none)
  else
    let rateLimitCheck := (checkRateLimit store ("create-post-" ++ authorId) now).1
    if !rateLimitCheck.allowed then
      .error (createAppError .RATE_LIMITED
        ("Post creation rate limited. Retry after " ++ retryAfterText rateLimitCheck ++ " seconds")
        none)
    else
      let validation := validatePostInput
        { title := some input.title, content := some input.content, excerpt := some input.excerpt }
      if !validation.valid then
        .error (createAppError .VALIDATION_ERROR (String.intercalate ", " validation.errors) none)
      else if !configured then
        .error (createAppError .CONFIGURATION_ERROR "Database service is not configured" none)
      else
        let readTime := calculateReadTime (jsOrStr validation.sanitized.content input.content)
        let row : PostInsertRow :=
          { title := validation.sanitized.title
            content := validation.sanitized.content
            excerpt := validation.sanitized.excerpt
            featured_image := jsOrOpt input.featuredImage none
            author_id := authorId
            published := input.published
            read_time := readTime }
        match backend row with
        | .error e => .error (handleError e (some "post creation"))
        | .ok ⟨_, some err⟩ => .error (handleError err (some "post creation"))
        | .ok ⟨data, none⟩ => .ok (mapPostFromDB { data with author := some (profileOfUser author) })

/-- `updatePost`. -/
def updatePost (input : UpdatePostInput) (configured : Bool)
    (backend : PostUpdates → SupaOutcome (Option PostRow)) : Except AppError (Option Post) :=
  if !isValidUUID input.id then
    .error (createAppError .VALIDATION_ERROR "Invalid post ID" none)
  else
    let validation := validatePostInput
      { title := input.title, content := input.content, excerpt := input.excerpt }
    if !validation.valid then
      .error (createAppError .VALIDATION_ERROR (String.intercalate ", " validation.errors) none)
    else if !configured then
      .error (createAppError .CONFIGURATION_ERROR "Database service is not configured" none)
    else
      let updates : PostUpdates :=
        { id := input.id
          title := if input.title.isSome then validation.sanitized.title else none
          content := if input.content.isSome then validation.sanitized.content else none
          read_time := input.content.map (fun c =>
            calculateReadTime (jsOrStr validation.sanitized.content c))
          excerpt := if input.excerpt.isSome then validation.sanitized.excerpt else none
          featured_image := input.featuredImage.map (fun f => jsOrOpt (some f) none)
          published := input.published }
      match backend updates with
      | .error e => .error (handleError e (some "post update"))
      | .ok ⟨_, some err⟩ => .error (handleError err (some "post update"))
      | .ok ⟨none, none⟩ => .ok none
      | .ok ⟨some data, none⟩ => .ok (some (mapPostFromDB data))

/-- `deletePost`. -/
def deletePost (id : String) (configured : Bool) (backend : SupaOutcome Unit) :
    Except AppError Bool :=
  if !isValidUUID id then
    .error (createAppError .VALIDATION_ERROR "Invalid post ID" none)
  else if !configured then
    .error (createAppError .CONFIGURATION_ERROR "Database service is not configured" none)
  else
    match backend with
    | .error e => .error (handleError e (some "post deletion"))
    | .ok ⟨_, some err⟩ => .error (handleError err (some "post deletion"))
    | .ok ⟨_, none⟩ => .ok true

/-- `addLike`. -/
def addLike (store : RateStore) (now : Nat) (postId userId : String) (configured : Bool)
    (backend : SupaOutcome Unit) : Except AppError Unit :=
  if !isValidUUID postId || !isValidUUID userId then
    .error (createAppError .VALIDATION_ERROR "Invalid post or user ID" none)
  else
    let rateLimitCheck := (checkRateLimit store ("like-" ++ userId) now).1
    if !rateLimitCheck.allowed then
      .error (createAppError .RATE_LIMITED "Too many like actions" none)
    else if !configured then
      .error (createAppError .CONFIGURATION_ERROR "Database service is not configured" none)
    else
      match backend with
      | .error e => .error (handleError e (some "like"))
      | .ok ⟨_, some err⟩ => .error (handleError err (some "like"))
      | .ok ⟨_, none⟩ => .ok ()

/-- `removeLike`. -/
def removeLike (postId userId : String) (configured : Bool)
    (backend : SupaOutcome Unit) : Except AppError Unit :=
  if !isValidUUID postId || !isValidUUID userId then
    .error (createAppError .VALIDATION_ERROR "Invalid post or user ID" none)
  else if !configured then
    .error (createAppError .CONFIGURATION_ERROR "Database service is not configured" none)
  else
    match backend with
    | .error e => .error (handleError e (some "like removal"))
    | .ok ⟨_, some err⟩ => .error (handleError err (some "like removal"))
    | .ok ⟨_, none⟩ => .ok ()

/-- `getLikesCount` — swallows every failure and yields `0`
(`count || 0` coincides with `Option.getD 0`). -/
def getLikesCount (postId : String) (configured : Bool)
    (backend : SupaOutcome (Option Nat)) : Except AppError Nat :=
  if !isValidUUID postId then .ok 0
  else if !configured then .ok 0
  else
    match backend with
    | .error _ => .ok 0
    | .ok ⟨_, some _⟩ => .ok 0
    | .ok ⟨count, none⟩ => .ok (count.getD 0)

/-- `checkUserLiked` — a `PGRST116` error field means "no row" and yields
`false` directly; every other failure is thrown and caught, also yielding
`false`. -/
def checkUserLiked (postId userId : String) (configured : Bool)
    (backend : SupaOutcome (Option Unit)) : Except AppError Bool :=
  if !isValidUUID postId || !isValidUUID userId then .ok false
  else if !configured then .ok false
  else
    match backend with
    | .error _ => .ok false
    | .ok ⟨_, some err⟩ => if err.code = some "PGRST116" then .ok false else .ok false
    | .ok ⟨data, none⟩ => .ok data.isSome

/-- `addComment`. -/
def addComment (store : RateStore) (now : Nat) (input : CreateCommentInput) (userId : String)
    (configured : Bool) (backend : SupaOutcome CommentRow) : Except AppError Comment :=
  if !isValidUUID input.postId || !isValidUUID userId then
    .error (createAppError .VALIDATION_ERROR "Invalid post or user ID" none)
  else
    let validation := validateCommentInput input.content
    if !validation.valid then
      .error (createAppError .VALIDATION_ERROR (String.intercalate ", " validation.errors) none)
    else
      let rateLimitCheck := (checkRateLimit store ("comment-" ++ userId) now).1
      if !rateLimitCheck.allowed then
        .error (createAppError .RATE_LIMITED "Too many comment actions" none)
      else if !configured then
        .error (createAppError .CONFIGURATION_ERROR "Database service is not configured" none)
      else
        match backend with
        | .error e => .error (handleError e (some "comment"))
        | .ok ⟨_, some err⟩ => .error (handleError err (some "comment"))
        | .ok ⟨data, none⟩ => .ok (mapCommentFromDB data)

/-- `getComments` — swallows every failure and yields `[]`. -/
def getComments (postId : String) (configured : Bool)
    (comments : SupaOutcome (Option (List CommentRow)))
    (profiles : SupaOutcome (Option (List ProfileRow))) : Except AppError (List Comment) :=
  if !isValidUUID postId then .ok []
  else if !configured then .ok []
  else
    match comments with
    | .error _ => .ok []
    | .ok ⟨_, some _⟩ => .ok []
    | .ok ⟨none, none⟩ => .ok []
    | .ok ⟨some data, none⟩ =>
      match profiles with
      | .error _ => .ok []
      | .ok ⟨profileData, _⟩ =>
        let profileList := profileData.getD []
        .ok (data.map (fun c =>
          mapCommentFromDB { c with profiles := lookupProfile profileList c.user_id }))

/-- `getCommentsCount` — swallows every failure and yields `0`. -/
def getCommentsCount (postId : String) (configured : Bool)
    (backend : SupaOutcome (Option Nat)) : Except AppError Nat :=
  if !isValidUUID postId then .ok 0
  else if !configured then .ok 0
  else
    match backend with
    | .error _ => .ok 0
    | .ok ⟨_, some _⟩ => .ok 0
    | .ok ⟨count, none⟩ => .ok (count.getD 0)

/-- `deleteComment`. -/
def deleteComment (commentId : String) (configured : Bool)
    (backend : SupaOutcome Unit) : Except AppError Unit :=
  if !isValidUUID commentId then
    .error (createAppError .VALIDATION_ERROR "Invalid comment ID" none)
  else if !configured then
    .error (createAppError .CONFIGURATION_ERROR "Database service is not configured" none)
  else
    match backend with
    | .error e => .error (handleError e (some "comment deletion"))
    | .ok ⟨_, some err⟩ => .error (handleError err (some "comment deletion"))
    | .ok ⟨_, none⟩ => .ok ()

/-- `getUserStats` — swallows every failure and yields all zeros. -/
def getUserStats (userId : String) (configured : Bool)
    (userPosts : SupaOutcome (Option (List String)))
    (likes : SupaOutcome (Option Nat))
    (comments : SupaOutcome (Option Nat)) : Except AppError UserStats :=
  let zeros : UserStats := ⟨0, 0, 0, 0⟩
  if !isValidUUID userId then .ok zeros
  else if !configured then .ok zeros
  else
    match userPosts with
    | .error _ => .ok zeros
    | .ok ⟨_, some _⟩ => .ok zeros
    | .ok ⟨data, none⟩ =>
      let postIds := data.getD []
      let publishedCount := postIds.length
      if postIds.length > 0 then
        match likes with
        | .error _ => .ok zeros
        | .ok ⟨_, some _⟩ => .ok zeros
        | .ok ⟨likesCount, none⟩ =>
          match comments with
          | .error _ => .ok zeros
          | .ok ⟨_, some _⟩ => .ok zeros
          | .ok ⟨commentsCount, none⟩ =>
            .ok ⟨likesCount.getD 0, commentsCount.getD 0, 0, publishedCount⟩
      else
        .ok ⟨0, 0, 0, publishedCount⟩

/-- `addBookmark`. -/
def addBookmark (store : RateStore) (now : Nat) (postId userId : String) (configured : Bool)
    (backend : SupaOutcome Unit) : Except AppError Unit :=
  if !isValidUUID postId || !isValidUUID userId then
    .error (createAppError .VALIDATION_ERROR "Invalid post or user ID" none)
  else
    let rateLimitCheck := (checkRateLimit store ("bookmark-" ++ userId) now).1
    if !rateLimitCheck.allowed then
      .error (createAppError .RATE_LIMITED "Too many bookmark actions" none)
    else if !configured then
      .error (createAppError .CONFIGURATION_ERROR "Database service is not configured" none)
    else
      match backend with
      | .error e => .error (handleError e (some "bookmark"))
      | .ok ⟨_, some err⟩ => .error (handleError err (some "bookmark"))
      | .ok ⟨_, none⟩ => .ok ()

/-- `removeBookmark`. -/
def removeBookmark (postId userId : String) (configured : Bool)
    (backend : SupaOutcome Unit) : Except AppError Unit :=
  if !isValidUUID postId || !isValidUUID userId then
    .error (createAppError .VALIDATION_ERROR "Invalid post or user ID" none)
  else if !configured then
    .error (createAppError .CONFIGURATION_ERROR "Database service is not configured" none)
  else
    match backend with
    | .error e => .error (handleError e (some "bookmark removal"))
    | .ok ⟨_, some err⟩ => .error (handleError err (some "bookmark removal"))
    | .ok ⟨_, none⟩ => .ok ()

/-- `checkUserBookmarked` — swallows every failure and yields `false`. -/
def checkUserBookmarked (postId userId : String) (configured : Bool)
    (backend : SupaOutcome (Option Unit)) : Except AppError Bool :=
  if !isValidUUID postId || !isValidUUID userId then .ok false
  else if !configured then .ok false
  else
    match backend with
    | .error _ => .ok false
    | .ok ⟨_, some _⟩ => .ok false
    | .ok ⟨data, none⟩ => .ok data.isSome

/-- `getUserBookmarks` — swallows every failure and yields `[]`. -/
def getUserBookmarks (userId : String) (configured : Bool)
    (bookmarks : SupaOutcome (Option (List String)))
    (posts : SupaOutcome (Option (List PostRow)))
    (profiles : SupaOutcome (Option (List ProfileRow))) : Except AppError (List Post) :=
  if !isValidUUID userId then .ok []
  else if !configured then .ok []
  else
    match bookmarks with
    | .error _ => .ok []
    | .ok ⟨_, some _⟩ => .ok []
    | .ok ⟨bookmarkData, none⟩ =>
      if (bookmarkData.getD []).isEmpty then .ok []
      else
        match posts with
        | .error _ => .ok []
        | .ok ⟨_, some _⟩ => .ok []
        | .ok ⟨none, none⟩ => .ok []
        | .ok ⟨some postData, none⟩ =>
          match profiles with
          | .error _ => .ok []
          | .ok ⟨profileData, _⟩ =>
            let profileList := profileData.getD []
            .ok (postData.map (fun p =>
              { mapPostFromDB p with
                author := (lookupProfile profileList p.author_id).map userOfProfile }))

end PostService

/-! ## Plain service variant (`src/lib/postService.ts` as named in the tree)

No UUID / configuration / rate-limit checks and no timeout wrapping; catch
blocks log and rethrow the ORIGINAL backend error (`throw error`), except
`checkUserBookmarked`, which returns `false`.  Only the operations the
claims quantify over are embedded. -/

namespace PostServiceV1

/-- `createPost`. -/
def createPost (input : CreatePostInput) (authorId : String) (author : User)
    (backend : PostInsertRow → SupaOutcome PostRow) : Except BackendError Post :=
  let readTime := calculateReadTime input.content
  let row : PostInsertRow :=
    { title := some input.title
      content := some input.content
      excerpt := some input.excerpt
      featured_image := jsOrOpt input.featuredImage none
      author_id := authorId
      published := input.published
      read_time := readTime }
  match backend row with
  | .error e => .error e
  | .ok ⟨_, some err⟩ => .error err
  | .ok ⟨data, none⟩ => .ok (mapPostFromDB { data with author := some (profileOfUser author) })

/-- `updatePost`. -/
def updatePost (input : UpdatePostInput)
    (backend : PostUpdates → SupaOutcome (Option PostRow)) : Except BackendError (Option Post) :=
  let updates : PostUpdates :=
    { id := input.id
      title := input.title
      content := input.content
      read_time := input.content.map calculateReadTime
      excerpt := input.excerpt
      featured_image := input.featuredImage.map (fun f => jsOrOpt (some f) none)
      published := input.published }
  match backend updates with
  | .error e => .error e
  | .ok ⟨_, some err⟩ => .error err
  | .ok ⟨none, none⟩ => .ok none
  | .ok ⟨some data, none⟩ => .ok (some (mapPostFromDB data))

/-- `deletePost`. -/
def deletePost (_id : String) (backend : SupaOutcome Unit) : Except BackendError Bool :=
  match backend with
  | .error e => .error e
  | .ok ⟨_, some err⟩ => .error err
  | .ok ⟨_, none⟩ => .ok true

/-- `addLike`. -/
def addLike (_postId _userId : String) (backend : SupaOutcome Unit) :
    Except BackendError Unit :=
  match backend with
  | .error e => .error e
  | .ok ⟨_, some err⟩ => .error err
  | .ok ⟨_, none⟩ => .ok ()

/-- `removeLike`. -/
def removeLike (_postId _userId : String) (backend : SupaOutcome Unit) :
    Except BackendError Unit :=
  match backend with
  | .error e => .error e
  | .ok ⟨_, some err⟩ => .error err
  | .ok ⟨_, none⟩ => .ok ()

/-- `getLikesCount` — NOTE: the catch block rethrows, so a backend failure
propagates. -/
def getLikesCount (_postId : String) (backend : SupaOutcome (Option Nat)) :
    Except BackendError Nat :=
  match backend with
  | .error e => .error e
  | .ok ⟨_, some err⟩ => .error err
  | .ok ⟨count, none⟩ => .ok (count.getD 0)

/-- `checkUserLiked` — `PGRST116` yields `false`; every other failure is
rethrown. -/
def checkUserLiked (_postId _userId : String) (backend : SupaOutcome (Option Unit)) :
    Except BackendError Bool :=
  match backend with
  | .error e => .error e
  | .ok ⟨_, some err⟩ => if err.code = some "PGRST116" then .ok false else .error err
  | .ok ⟨data, none⟩ => .ok data.isSome

/-- `addComment`. -/
def addComment (_input : CreateCommentInput) (_userId : String)
    (backend : SupaOutcome CommentRow) : Except BackendError Comment :=
  match backend with
  | .error e => .error e
  | .ok ⟨_, some err⟩ => .error err
  | .ok ⟨data, none⟩ => .ok (mapCommentFromDB data)

/-- `getComments` — rethrows on failure of the comments query; the
per-comment profile fetch has its own inner catch that falls back to the
bare comment row. -/
def getComments (_postId : String)
    (comments : SupaOutcome (Option (List CommentRow)))
    (profileFor : String → SupaOutcome (Option ProfileRow)) :
    Except BackendError (List Comment) :=
  match comments with
  | .error e => .error e
  | .ok ⟨_, some err⟩ => .error err
  | .ok ⟨none, none⟩ => .ok []
  | .ok ⟨some data, none⟩ =>
    .ok (data.map (fun c =>
      match profileFor c.user_id with
      | .error _ => mapCommentFromDB c
      | .ok ⟨prof, _⟩ => mapCommentFromDB { c with profiles := prof }))

/-- `getCommentsCount` — rethrows on failure. -/
def getCommentsCount (_postId : String) (backend : SupaOutcome (Option Nat)) :
    Except BackendError Nat :=
  match backend with
  | .error e => .error e
  | .ok ⟨_, some err⟩ => .error err
  | .ok ⟨count, none⟩ => .ok (count.getD 0)

/-- `deleteComment`. -/
def deleteComment (_commentId : String) (backend : SupaOutcome Unit) :
    Except BackendError Unit :=
  match backend with
  | .error e => .error e
  | .ok ⟨_, some err⟩ => .error err
  | .ok ⟨_, none⟩ => .ok ()

/-- `addBookmark`. -/
def addBookmark (_postId _userId : String) (backend : SupaOutcome Unit) :
    Except BackendError Unit :=
  match backend with
  | .error e => .error e
  | .ok ⟨_, some err⟩ => .error err
  | .ok ⟨_, none⟩ => .ok ()

/-- `removeBookmark`. -/
def removeBookmark (_postId _userId : String) (backend : SupaOutcome Unit) :
    Except BackendError Unit :=
  match backend with
  | .error e => .error e
  | .ok ⟨_, some err⟩ => .error err
  | .ok ⟨_, none⟩ => .ok ()

/-- `checkUserBookmarked` — the one plain-variant read whose catch block
returns `false` instead of rethrowing. -/
def checkUserBookmarked (_postId _userId : String) (backend : SupaOutcome (Option Unit)) :
    Except BackendError Bool :=
  match backend with
  | .error _ => .ok false
  | .ok ⟨_, some _⟩ => .ok false
  | .ok ⟨data, none⟩ => .ok data.isSome

end PostServiceV1

/-! ## `src/pages/PostEditor.tsx` — `handleSave`

`handleSave` validates the editor state, then hands a `CreatePostInput`
(no route id) or `UpdatePostInput` (route id present) to the service.
`none` models the early returns (no user / blank title). -/

def jsSubstring0 (s : String) (n : Nat) : String := ⟨s.data.take n⟩

namespace PostEditor

/-- `excerpt.trim() || content.trim().substring(0, 200)`. -/
def savedExcerpt (excerpt content : String) : String :=
  jsOrStr (some (jsTrim excerpt)) (jsSubstring0 (jsTrim content) 200)

/-- The argument `handleSave` passes to `PostService.createPost` when no
route id is present. -/
def handleSaveCreateInput (hasUser : Bool) (title content excerpt featuredImage : String)
    (finalPublished : Bool) : Option CreatePostInput :=
  if !hasUser then none
  else if jsTrim title = "" then none
  else some
    { title := jsTrim title
      content := jsTrim content
      excerpt := savedExcerpt excerpt content
      featuredImage := if featuredImage ≠ "" then some (jsTrim featuredImage) else none
      published := finalPublished }

/-- The argument `handleSave` passes to `PostService.updatePost` when a
route id is present. -/
def handleSaveUpdateInput (hasUser : Bool) (id title content excerpt featuredImage : String)
    (finalPublished : Bool) : Option UpdatePostInput :=
  if !hasUser then none
  else if jsTrim title = "" then none
  else some
    { id := id
      title := some (jsTrim title)
      content := some (jsTrim content)
      excerpt := some (savedExcerpt excerpt content)
      featuredImage := if featuredImage ≠ "" then some (jsTrim featuredImage) else none
      published := some finalPublished }

end PostEditor

/-! ## `src/store/slices/authSlice.ts` and the `App` bootstrap effect -/

structure AuthState where
  user : Option User
  isLoading : Bool
  error : Option String
deriving DecidableEq, Repr

def initialAuthState : AuthState := { user := none, isLoading := true, error := none }

/-- Every action the auth slice reduces (plain reducers plus the thunk
lifecycle actions of `extraReducers`). -/
inductive AuthAction where
  | setUser (u : Option User)
  | setLoading (b : Bool)
  | clearError
  | initAuthPending
  | initAuthFulfilled (u : Option User)
  | initAuthRejected (msg : String)
  | loginPending
  | loginFulfilled (u : Option User)
  | loginRejected (msg : String)
  | signupPending
  | signupFulfilled (u : Option User)
  | signupRejected (msg : String)
  | logoutFulfilled

/-- The `authSlice` reducer. -/
def authReducer (s : AuthState) : AuthAction → AuthState
  | .setUser u => { s with user := u, isLoading := false }
  | .setLoading b => { s with isLoading := b }
  | .clearError => { s with error := none }
  | .initAuthPending => { s with isLoading := true }
  | .initAuthFulfilled u => { s with user := u, isLoading := false, error := none }
  | .initAuthRejected m => { s with isLoading := false, error := some m }
  | .loginPending => { s with error := none }
  | .loginFulfilled u => { s with user := u, error := none }
  | .loginRejected m => { s with error := some m }
  | .signupPending => { s with error := none }
  | .signupFulfilled u => { s with user := u, error := none }
  | .signupRejected m => { s with error := some m }
  | .logoutFulfilled => { s with user := none, isLoading := false, error := none }

def runActions (s : AuthState) (as : List AuthAction) : AuthState :=
  as.foldl authReducer s

/-- How one run of the `initializeAuth` thunk can end: the promise
fulfills, rejects, or never settles within the failsafe window. -/
inductive BootstrapOutcome where
  | fulfilled (u : Option User)
  | rejected (msg : String)
  | hung

/-- The dispatches of one run of the `App` bootstrap effect (App.tsx,
`src/unnamed/part_004`): `initializeAuth` is dispatched (pending fires),
its settlement dispatches the matching lifecycle action — with the
`catch` around `.unwrap()` additionally dispatching `setLoading(false)` on
rejection — and the 5-second failsafe timer, when it fires, dispatches
`setLoading(false)`. -/
def bootstrapActions (o : BootstrapOutcome) (failsafeFired : Bool) : List AuthAction :=
  [.initAuthPending] ++
  (match o with
   | .fulfilled u => [.initAuthFulfilled u]
   | .rejected m => [.initAuthRejected m, .setLoading false]
   | .hung => []) ++
  (if failsafeFired then [.setLoading false] else [])

/-- The auth-state-change listener only ever dispatches `setUser`. -/
def IsListenerAction : AuthAction → Prop
  | .setUser _ => True
  | _ => False

/-! ## Specification-side comparison definitions

These two definitions are written from the SPEC's wording (not from the
source) and are only used on the spec side of refinement statements. -/

/-- Word count as the spec means it: the number of maximal runs of
non-whitespace characters.  `prevWs` is true when the previous character
was whitespace (or at the start). -/
def countRunsAux : Bool → List Char → Nat
  | _, [] => 0
  | prevWs, c :: cs =>
    if isWsChar c then countRunsAux true cs
    else (if prevWs then 1 else 0) + countRunsAux false cs

/-- Spec-side word count of a content string. -/
def countWordsSpec (s : String) : Nat := countRunsAux true s.data

/-- Spec-side single-character HTML entity encoding: each of the six
dangerous characters maps to its entity, everything else to itself. -/
def htmlEntityOf (c : Char) : List Char :=
  if c = '&' then "&amp;".data
  else if c = '<' then "&lt;".data
  else if c = '>' then "&gt;".data
  else if c = '"' then "&quot;".data
  else if c = '\x27' then "&#x27;".data
  else if c = '/' then "&#x2F;".data
  else [c]

/-! ## Auxiliary definitions used by the theorems below -/

/-- No trailing whitespace. -/
def NoTrailWs (cs : List Char) : Prop :=
  ∀ c, cs.getLast? = some c → isWsChar c = false

/-- A sequence of `checkRateLimit` calls for one identifier, at the given
(`Date.now()`) times, threading the store. -/
def runCalls (store : RateStore) (identifier : String) (ts : List Nat) :
    List RateLimitResult × RateStore :=
  match ts with
  | [] => ([], store)
  | t :: rest =>
    let step := checkRateLimit store identifier t
    let next := runCalls step.2 identifier rest
    (step.1 :: next.1, next.2)

deriving instance DecidableEq for Except

/-- `"word ".repeat(250)`. -/
def repeatWord250 : String := String.join (List.replicate 250 "word ")

def uuidA : String := "123e4567-e89b-12d3-a456-426614174000"

/-- A backend that stores the inserted row and echoes it back (`.single()`
returning the created row), with fixed id/timestamps. -/
def echoPostRow (r : PostInsertRow) : PostRow :=
  { id := uuidA
    title := r.title.getD ""
    content := r.content.getD ""
    excerpt := r.excerpt.getD ""
    featured_image := r.featured_image
    author_id := r.author_id
    published := r.published
    read_time := r.read_time
    created_at := ""
    updated_at := ""
    author := none
    author_profile := none }

def echoCreateBackend (r : PostInsertRow) : SupaOutcome PostRow := .ok ⟨echoPostRow r, none⟩

def editorUser : User :=
  { id := uuidA, email := "a@b.co", name := "A", avatar := none, createdAt := "" }

/-- The end-to-end editor scenario: saving a new post titled `"Hi"` with
content `"word ".repeat(250)` and no excerpt, against an echoing
configured backend with a fresh rate-limit store. -/
def editorScenario : Except AppError Post :=
  match PostEditor.handleSaveCreateInput true "Hi" repeatWord250 "" "" true with
  | some inp =>
    PostService.createPost (fun _ => none) 0 inp uuidA editorUser true echoCreateBackend
  | none => .error (createAppError .UNKNOWN_ERROR "title missing" none)

def uuidB : String := "223e4567-e89b-12d3-a456-426614174000"

def errNetwork : BackendError := BackendError.ofError "network failure"

def cin0 : CreatePostInput :=
  { title := "Hi", content := "Hello", excerpt := "", featuredImage := none, published := false }

def uin0 : UpdatePostInput :=
  { id := "123e4567-e89b-12d3-a456-426614174000", title := none, content := none,
    excerpt := none, featuredImage := none, published := none }

def cmt0 : CreateCommentInput :=
  { postId := "123e4567-e89b-12d3-a456-426614174000", content := "Nice" }

/-! # Theorems -/

/-! ## C4 — `withTimeout` -/

/-- C4: `withTimeout(operation, timeoutMs, label)` races the operation
against a timer: if the timer fires first, the call rejects with an error
whose message contains both the label and the `timeoutMs` value; if the
operation settles first, `withTimeout` returns its resolved value or
rethrows its rejection unchanged, with no retry. -/
theorem C4_withTimeout_race {α : Type} (timeoutMs : Nat) (operation : String) :
    (withTimeout (α := α) .timer timeoutMs operation =
        .error (BackendError.ofError (timeoutMessage operation timeoutMs)) ∧
      StrContains (timeoutMessage operation timeoutMs) operation ∧
      StrContains (timeoutMessage operation timeoutMs) (toString timeoutMs)) ∧
    (∀ r : Except BackendError α, withTimeout (.op r) timeoutMs operation = r) := by
  refine ⟨⟨rfl, ?_, ?_⟩, fun r => rfl⟩
  · exact ⟨"", " timed out after " ++ toString timeoutMs ++ "ms", by
      simp [timeoutMessage, String.append_assoc]⟩
  · exact ⟨operation ++ " timed out after ", "ms", by
      simp [timeoutMessage, String.append_assoc]⟩

/-! ## C7 — `sanitizeHtml` -/

theorem sanitizeHtmlChars_eq_flatMap (cs : List Char) :
    sanitizeHtmlChars cs = cs.flatMap htmlEntityOf := by
  unfold sanitizeHtmlChars jsReplaceChar
  rw [List.flatMap_assoc, List.flatMap_assoc, List.flatMap_assoc, List.flatMap_assoc,
    List.flatMap_assoc]
  congr 1
  funext c
  by_cases h1 : c = '&'
  · subst h1; decide
  by_cases h2 : c = '<'
  · subst h2; decide
  by_cases h3 : c = '>'
  · subst h3; decide
  by_cases h4 : c = '"'
  · subst h4; decide
  by_cases h5 : c = '\x27'
  · subst h5; decide
  by_cases h6 : c = '/'
  · subst h6; decide
  simp [h1, h2, h3, h4, h5, h6, htmlEntityOf]

theorem htmlEntityOf_no_angle (c x : Char) (hx : x ∈ htmlEntityOf c) :
    x ≠ '<' ∧ x ≠ '>' := by
  constructor
  · rintro rfl
    by_cases h1 : c = '&'
    · subst h1; exact absurd hx (by decide)
    by_cases h2 : c = '<'
    · subst h2; exact absurd hx (by decide)
    by_cases h3 : c = '>'
    · subst h3; exact absurd hx (by decide)
    by_cases h4 : c = '"'
    · subst h4; exact absurd hx (by decide)
    by_cases h5 : c = '\x27'
    · subst h5; exact absurd hx (by decide)
    by_cases h6 : c = '/'
    · subst h6; exact absurd hx (by decide)
    · simp only [htmlEntityOf, if_neg h1, if_neg h2, if_neg h3, if_neg h4, if_neg h5, if_neg h6,
        List.mem_singleton] at hx
      exact h2 hx.symm
  · rintro rfl
    by_cases h1 : c = '&'
    · subst h1; exact absurd hx (by decide)
    by_cases h2 : c = '<'
    · subst h2; exact absurd hx (by decide)
    by_cases h3 : c = '>'
    · subst h3; exact absurd hx (by decide)
    by_cases h4 : c = '"'
    · subst h4; exact absurd hx (by decide)
    by_cases h5 : c = '\x27'
    · subst h5; exact absurd hx (by decide)
    by_cases h6 : c = '/'
    · subst h6; exact absurd hx (by decide)
    · simp only [htmlEntityOf, if_neg h1, if_neg h2, if_neg h3, if_neg h4, if_neg h5, if_neg h6,
        List.mem_singleton] at hx
      exact h3 hx.symm

/-- C7: `sanitizeHtml` replaces each occurrence of `& < > " ' /` by its
HTML entity (the sequential replacement chain equals the simultaneous
per-character entity encoding), hence its output never contains a literal
`<` or `>`; in particular on `"<img src=x onerror=alert(1)>"`. -/
theorem C7_sanitizeHtml_escapes :
    (∀ input : String, sanitizeHtml input = ⟨input.data.flatMap htmlEntityOf⟩) ∧
    (∀ input : String,
      '<' ∉ (sanitizeHtml input).data ∧ '>' ∉ (sanitizeHtml input).data) ∧
    sanitizeHtml "<img src=x onerror=alert(1)>" = "&lt;img src=x onerror=alert(1)&gt;" := by
  have hmain : ∀ input : String, sanitizeHtml input = ⟨input.data.flatMap htmlEntityOf⟩ := by
    intro input
    by_cases h : input = ""
    · subst h; rfl
    · simp only [sanitizeHtml, if_neg h, sanitizeHtmlChars_eq_flatMap]
  refine ⟨hmain, ?_, by decide⟩
  intro input
  rw [hmain]
  constructor
  · intro hmem
    obtain ⟨c, _, hc⟩ := List.mem_flatMap.mp hmem
    exact (htmlEntityOf_no_angle c '<' hc).1 rfl
  · intro hmem
    obtain ⟨c, _, hc⟩ := List.mem_flatMap.mp hmem
    exact (htmlEntityOf_no_angle c '>' hc).2 rfl

/-! ## C5 — `calculateReadTime` -/

theorem head_dropWhile_false {p : Char → Bool} {l : List Char} {c : Char}
    (h : (l.dropWhile p).head? = some c) : p c = false := by
  induction l with
  | nil => simp [List.dropWhile] at h
  | cons a as ih =>
    by_cases hp : p a
    · rw [List.dropWhile_cons_of_pos hp] at h; exact ih h
    · rw [List.dropWhile_cons_of_neg hp] at h
      simp at h
      subst h
      simpa using hp

theorem countRunsAux_allWs (l : List Char) (h : ∀ c ∈ l, isWsChar c = true) :
    ∀ b, countRunsAux b l = 0 := by
  induction l with
  | nil => intro b; rfl
  | cons a as ih =>
    intro b
    have ha : isWsChar a = true := h a (List.mem_cons_self a as)
    simp only [countRunsAux, ha, if_pos]
    exact ih (fun c hc => h c (List.mem_cons_of_mem a hc)) true
theorem countRunsAux_append_ws (l s : List Char) (hs : ∀ c ∈ s, isWsChar c = true) :
    ∀ b, countRunsAux b (l ++ s) = countRunsAux b l := by
  induction l with
  | nil => intro b; simpa using countRunsAux_allWs s hs b
  | cons a as ih =>
    intro b
    by_cases ha : isWsChar a
    · simp only [List.cons_append, countRunsAux, ha, if_pos]
      exact ih true
    · simp only [List.cons_append, countRunsAux, ha, Bool.false_eq_true, if_false,
        List.append_eq]
      rw [ih false]

theorem countRunsAux_dropWhileWs (l : List Char) :
    countRunsAux true (l.dropWhile isWsChar) = countRunsAux true l := by
  induction l with
  | nil => rfl
  | cons a as ih =>
    by_cases ha : isWsChar a
    · rw [List.dropWhile_cons_of_pos ha]
      simp only [countRunsAux, ha, if_pos]
      exact ih
    · rw [List.dropWhile_cons_of_neg ha]

/-- Any list splits as its trailing-whitespace-trimmed part plus an
all-whitespace suffix. -/
theorem trimTrail_decomp (l : List Char) :
    (∀ c ∈ (l.reverse.takeWhile isWsChar).reverse, isWsChar c = true) ∧
    l = (l.reverse.dropWhile isWsChar).reverse ++ (l.reverse.takeWhile isWsChar).reverse := by
  constructor
  · intro c hc
    rw [List.mem_reverse] at hc
    exact List.mem_takeWhile_imp hc
  · calc l = l.reverse.reverse := (List.reverse_reverse l).symm
      _ = (l.reverse.takeWhile isWsChar ++ l.reverse.dropWhile isWsChar).reverse := by
          rw [List.takeWhile_append_dropWhile]
      _ = (l.reverse.dropWhile isWsChar).reverse ++ (l.reverse.takeWhile isWsChar).reverse := by
          rw [List.reverse_append]

theorem noTrailWs_jsTrimChars (cs : List Char) : NoTrailWs (jsTrimChars cs) := by
  intro c hc
  unfold jsTrimChars at hc
  rw [List.getLast?_reverse] at hc
  exact head_dropWhile_false hc

/-- The trimmed list starts with a non-whitespace character. -/
theorem jsTrimChars_head (cs : List Char) {c : Char} {t : List Char}
    (h : jsTrimChars cs = c :: t) : isWsChar c = false := by
  have hd := (trimTrail_decomp (cs.dropWhile isWsChar)).2
  unfold jsTrimChars at h
  rw [h] at hd
  have hh : (cs.dropWhile isWsChar).head? = some c := by
    rw [hd]; rfl
  exact head_dropWhile_false hh

theorem countRunsAux_jsTrimChars (cs : List Char) :
    countRunsAux true (jsTrimChars cs) = countRunsAux true cs := by
  have hdec := trimTrail_decomp (cs.dropWhile isWsChar)
  calc countRunsAux true (jsTrimChars cs)
      = countRunsAux true (jsTrimChars cs ++
          ((cs.dropWhile isWsChar).reverse.takeWhile isWsChar).reverse) := by
        rw [countRunsAux_append_ws _ _ hdec.1]
    _ = countRunsAux true (cs.dropWhile isWsChar) := by
        unfold jsTrimChars
        rw [← hdec.2]
    _ = countRunsAux true cs := countRunsAux_dropWhileWs cs

theorem noTrailWs_tail {a : Char} {as : List Char} (h : NoTrailWs (a :: as)) :
    NoTrailWs as := by
  cases as with
  | nil => intro c hc; simp at hc
  | cons b bs =>
    intro c hc
    apply h c
    rwa [List.getLast?_cons_cons]

theorem noTrailWs_ws_head {a : Char} {as : List Char} (h : NoTrailWs (a :: as))
    (ha : isWsChar a = true) : as ≠ [] := by
  rintro rfl
  have hf := h a rfl
  rw [ha] at hf
  exact Bool.true_eq_false.mp hf

theorem countRunsAux_pos (cs : List Char) (hnt : NoTrailWs cs) (hne : cs ≠ []) :
    1 ≤ countRunsAux true cs := by
  induction cs with
  | nil => exact absurd rfl hne
  | cons a as ih =>
    by_cases ha : isWsChar a
    · simp only [countRunsAux, ha, if_pos]
      exact ih (noTrailWs_tail hnt) (noTrailWs_ws_head hnt ha)
    · simp only [countRunsAux, ha, Bool.false_eq_true, if_false, if_pos]
      omega

theorem splitWsAux_length (cs : List Char) (hnt : NoTrailWs cs) :
    ∀ cur : List Char,
      (splitWsAux cs cur false).length = 1 + countRunsAux false cs ∧
      (splitWsAux cs cur true).length = max 1 (countRunsAux true cs) := by
  induction cs with
  | nil => intro cur; constructor <;> rfl
  | cons a as ih =>
    intro cur
    have hnt2 : NoTrailWs as := noTrailWs_tail hnt
    by_cases ha : isWsChar a
    · have hne2 : as ≠ [] := noTrailWs_ws_head hnt ha
      have hpos := countRunsAux_pos as hnt2 hne2
      constructor
      · simp only [splitWsAux, ha, if_pos, Bool.false_eq_true, if_false, List.length_cons,
          countRunsAux]
        rw [(ih hnt2 []).2]
        omega
      · simp only [splitWsAux, ha, if_pos, countRunsAux]
        exact (ih hnt2 cur).2
    · constructor
      · simp only [splitWsAux, ha, Bool.false_eq_true, if_false, countRunsAux]
        rw [(ih hnt2 (a :: cur)).1]
        omega
      · simp only [splitWsAux, ha, Bool.false_eq_true, if_false, countRunsAux, if_pos]
        rw [(ih hnt2 (a :: cur)).1]
        omega

theorem data_mk (l : List Char) : (⟨l⟩ : String).data = l := rfl

set_option maxRecDepth 100000 in
/-- C5: for every content string the computed read time equals the word
count (number of maximal non-whitespace runs) divided by 200 words per
minute, rounded up, with a minimum of 1; content of exactly 400 words
yields 2 and content of one word yields 1. -/
theorem C5_read_time :
    (∀ content : String,
      calculateReadTime content = max 1 (countWordsSpec content ⌈/⌉ 200)) ∧
    calculateReadTime (String.intercalate " " (List.replicate 400 "w")) = 2 ∧
    calculateReadTime "word" = 1 := by
  refine ⟨?_, by decide, by decide⟩
  intro content
  have hnt := noTrailWs_jsTrimChars content.data
  rcases h : jsTrimChars content.data with _ | ⟨c, t⟩
  · have hspec : countWordsSpec content = 0 := by
      unfold countWordsSpec
      rw [← countRunsAux_jsTrimChars content.data, h]
      rfl
    simp only [calculateReadTime, jsSplitWs, jsTrim, data_mk]
    rw [h, hspec]
    decide
  · have hc : isWsChar c = false := jsTrimChars_head content.data h
    have hnt2 : NoTrailWs (c :: t) := h ▸ hnt
    have hlen := (splitWsAux_length (c :: t) hnt2 []).1
    have hspec : countWordsSpec content = 1 + countRunsAux false t := by
      unfold countWordsSpec
      rw [← countRunsAux_jsTrimChars content.data, h]
      simp [countRunsAux, hc]
    simp only [calculateReadTime, jsSplitWs, jsTrim, data_mk]
    rw [h, hlen, hspec, Nat.ceilDiv_eq_add_pred_div]
    simp only [countRunsAux, hc, Bool.false_eq_true, if_false]
    congr 1
    congr 1
    omega

/-! ## C3, C9, C10 — rate limiter -/

theorem RateStore.set_self (store : RateStore) (k : String) (r : RateRecord) :
    (store.set k r) k = some r := by
  simp [RateStore.set]

/-- Invariant for in-window calls: starting from a record `⟨c, R⟩`, calls
at times `≤ R` are all allowed while the running count stays below the
maximum, and the count advances by one per call. -/
theorem runCalls_inWindow (identifier : String) (ts : List Nat) :
    ∀ (store : RateStore) (c R : Nat),
      store identifier = some ⟨c, R⟩ →
      (∀ t ∈ ts, t ≤ R) →
      c + ts.length ≤ SecurityConfig.RATE_LIMIT_MAX_REQUESTS →
      (runCalls store identifier ts).1.all (fun r => r.allowed) = true ∧
      (runCalls store identifier ts).2 identifier = some ⟨c + ts.length, R⟩ := by
  induction ts with
  | nil =>
    intro store c R hc _ _
    simpa [runCalls] using hc
  | cons t rest ih =>
    intro store c R hc ht hmax
    have htR : ¬ (t > R) := by
      have := ht t (List.mem_cons_self t rest)
      omega
    have hcmax : ¬ (c ≥ SecurityConfig.RATE_LIMIT_MAX_REQUESTS) := by
      simp only [SecurityConfig.RATE_LIMIT_MAX_REQUESTS] at hmax ⊢
      simp only [List.length_cons] at hmax
      omega
    have hstep : checkRateLimit store identifier t =
        (⟨true, none⟩, store.set identifier ⟨c + 1, R⟩) := by
      simp only [checkRateLimit, hc, if_neg htR, if_neg hcmax]
    have hrest := ih (store.set identifier ⟨c + 1, R⟩) (c + 1) R
      (RateStore.set_self store identifier ⟨c + 1, R⟩)
      (fun x hx => ht x (List.mem_cons_of_mem t hx))
      (by simp only [List.length_cons] at hmax; omega)
    constructor
    · simp only [runCalls, hstep, List.all_cons, Bool.and_eq_true]
      exact ⟨trivial, hrest.1⟩
    · simp only [runCalls, hstep]
      rw [hrest.2]
      simp only [List.length_cons]
      congr 2
      omega

set_option maxRecDepth 10000 in
/-- C3 (amended): for a fresh identifier, a first call at `t1` and further
calls at times within the window (`≤ t1 + window`, i.e. not after the
window has elapsed) are all allowed while at most 30 calls are made; the
31st call in the same window is denied with
`retryAfter = ceil((resetTime - now) / 1000)`, which is positive whenever
the call is made strictly before the reset time (and 0 exactly at the
reset time); a call made after the window has elapsed (`now > resetTime`)
resets the stored count to 1 and is allowed. -/
theorem C3_rate_limit_window (identifier : String) (store : RateStore)
    (h0 : store identifier = none) :
    (∀ (t1 : Nat) (ts : List Nat),
      ts.length + 1 ≤ SecurityConfig.RATE_LIMIT_MAX_REQUESTS →
      (∀ t ∈ ts, t ≤ t1 + SecurityConfig.RATE_LIMIT_WINDOW_MS) →
      (runCalls store identifier (t1 :: ts)).1.all (fun r => r.allowed) = true) ∧
    (∀ (t1 : Nat) (ts : List Nat) (tNext : Nat),
      ts.length + 1 = SecurityConfig.RATE_LIMIT_MAX_REQUESTS →
      (∀ t ∈ ts, t ≤ t1 + SecurityConfig.RATE_LIMIT_WINDOW_MS) →
      tNext ≤ t1 + SecurityConfig.RATE_LIMIT_WINDOW_MS →
      (checkRateLimit (runCalls store identifier (t1 :: ts)).2 identifier tNext).1.allowed
          = false ∧
      (checkRateLimit (runCalls store identifier (t1 :: ts)).2 identifier tNext).1.retryAfter
          = some ((t1 + SecurityConfig.RATE_LIMIT_WINDOW_MS - tNext + 999) / 1000) ∧
      (tNext < t1 + SecurityConfig.RATE_LIMIT_WINDOW_MS →
        0 < (t1 + SecurityConfig.RATE_LIMIT_WINDOW_MS - tNext + 999) / 1000)) ∧
    (∀ (store2 : RateStore) (rec : RateRecord) (now : Nat),
      store2 identifier = some rec → now > rec.resetTime →
      (checkRateLimit store2 identifier now).1 = ⟨true, none⟩ ∧
      (checkRateLimit store2 identifier now).2 identifier
          = some ⟨1, now + SecurityConfig.RATE_LIMIT_WINDOW_MS⟩) := by
  have hfirst : ∀ t1 : Nat, checkRateLimit store identifier t1 =
      (⟨true, none⟩,
        store.set identifier ⟨1, t1 + SecurityConfig.RATE_LIMIT_WINDOW_MS⟩) := by
    intro t1
    simp only [checkRateLimit, h0]
  refine ⟨?_, ?_, ?_⟩
  · intro t1 ts hlen ht
    have hrest := runCalls_inWindow identifier ts
      (store.set identifier ⟨1, t1 + SecurityConfig.RATE_LIMIT_WINDOW_MS⟩) 1
      (t1 + SecurityConfig.RATE_LIMIT_WINDOW_MS)
      (RateStore.set_self _ _ _) ht (by omega)
    simp only [runCalls, hfirst t1, List.all_cons, Bool.and_eq_true]
    exact ⟨trivial, hrest.1⟩
  · intro t1 ts tNext hlen ht htNext
    have hrest := runCalls_inWindow identifier ts
      (store.set identifier ⟨1, t1 + SecurityConfig.RATE_LIMIT_WINDOW_MS⟩) 1
      (t1 + SecurityConfig.RATE_LIMIT_WINDOW_MS)
      (RateStore.set_self _ _ _) ht (by omega)
    have hfinal : (runCalls store identifier (t1 :: ts)).2 identifier
        = some ⟨1 + ts.length, t1 + SecurityConfig.RATE_LIMIT_WINDOW_MS⟩ := by
      simp only [runCalls, hfirst t1]
      exact hrest.2
    have hnotexp : ¬ (tNext > t1 + SecurityConfig.RATE_LIMIT_WINDOW_MS) := by omega
    have hdenied : 1 + ts.length ≥ SecurityConfig.RATE_LIMIT_MAX_REQUESTS := by omega
    have hres : (checkRateLimit (runCalls store identifier (t1 :: ts)).2 identifier tNext).1
        = ⟨false, some ((t1 + SecurityConfig.RATE_LIMIT_WINDOW_MS - tNext + 999) / 1000)⟩ := by
      simp only [checkRateLimit, hfinal, if_neg hnotexp, if_pos hdenied]
    refine ⟨by rw [hres], by rw [hres], ?_⟩
    intro hlt
    have h1000 : 1000 ≤ t1 + SecurityConfig.RATE_LIMIT_WINDOW_MS - tNext + 999 := by omega
    calc 0 < 1 := Nat.one_pos
      _ ≤ (t1 + SecurityConfig.RATE_LIMIT_WINDOW_MS - tNext + 999) / 1000 :=
        (Nat.one_le_div_iff (by norm_num)).mpr h1000
  · intro store2 rec now hrec hexp
    constructor
    · simp only [checkRateLimit, hrec, if_pos hexp]
    · simp only [checkRateLimit, hrec, if_pos hexp]
      exact RateStore.set_self _ _ _

set_option maxRecDepth 10000 in
/-- C3 counterexample: with 30 allowed calls at time 0, the stored record
is `⟨30, 60000⟩`; the 31st call at `now = 60000` is still in the same
window by the claim's own definition (the window has elapsed only when
`now > resetTime`, and `60000 > 60000` is false), is denied — but its
`retryAfter` is 0, not `> 0` as the claim states. -/
theorem C3_counterexample :
    (runCalls (fun _ => none) "posts" (List.replicate 30 0)).2 "posts"
        = some ⟨30, 60000⟩ ∧
    ¬ ((60000 : Nat) > 60000) ∧
    (checkRateLimit (runCalls (fun _ => none) "posts" (List.replicate 30 0)).2 "posts" 60000).1
        = ⟨false, some 0⟩ := by
  refine ⟨by decide, by omega, by decide⟩

set_option maxRecDepth 10000 in
/-- Witness for C3: a concrete run — fresh identifier, first call at time
0 plus 29 more calls at time 0, 31st call at 59000 (strictly inside the
window). -/
theorem C3_rate_limit_window_witness :
    (runCalls (fun _ => none) "posts" (0 :: List.replicate 29 0)).1.all
        (fun r => r.allowed) = true ∧
    (checkRateLimit (runCalls (fun _ => none) "posts" (0 :: List.replicate 29 0)).2
        "posts" 59000).1.allowed = false ∧
    0 < (0 + SecurityConfig.RATE_LIMIT_WINDOW_MS - 59000 + 999) / 1000 := by
  have h := C3_rate_limit_window "posts" (fun _ => none) rfl
  refine ⟨h.1 0 (List.replicate 29 0) (by decide) (by decide), ?_, ?_⟩
  · exact (h.2.1 0 (List.replicate 29 0) 59000 (by decide) (by decide) (by decide)).1
  · exact (h.2.1 0 (List.replicate 29 0) 59000 (by decide) (by decide) (by decide)).2.2
      (by decide)

/-- C9: running `cleanupRateLimitStore` (at any time `nc` not later than
the next check) is observation-preserving: the next `checkRateLimit`
returns the same allowed flag and `retryAfter` with or without the
cleanup, because cleanup removes exactly records the check would reset
anyway. -/
theorem C9_cleanup_preserves_check (store : RateStore) (identifier : String)
    (nc now : Nat) (h : nc ≤ now) :
    (checkRateLimit (cleanupRateLimitStore store nc) identifier now).1
      = (checkRateLimit store identifier now).1 := by
  rcases hrec : store identifier with _ | rec
  · have hclean : cleanupRateLimitStore store nc identifier = none := by
      simp [cleanupRateLimitStore, hrec]
    simp [checkRateLimit, hrec, hclean]
  · by_cases hexp : nc > rec.resetTime
    · have hclean : cleanupRateLimitStore store nc identifier = none := by
        simp [cleanupRateLimitStore, hrec, hexp]
      have hnow : now > rec.resetTime := by omega
      simp [checkRateLimit, hrec, hclean, hnow]
    · have hclean : cleanupRateLimitStore store nc identifier = some rec := by
        simp [cleanupRateLimitStore, hrec, hexp]
      simp only [checkRateLimit, hrec, hclean]
      by_cases h1 : rec.resetTime < now
      · simp [h1]
      · by_cases h2 : SecurityConfig.RATE_LIMIT_MAX_REQUESTS ≤ rec.count <;>
          simp [h1, h2]

/-- Witness for C9: a store holding an expired record, cleaned at time
70000 and checked at 70500. -/
theorem C9_cleanup_preserves_check_witness :
    (checkRateLimit
        (cleanupRateLimitStore
          (fun k => if k = "posts" then some ⟨30, 60000⟩ else none) 70000)
        "posts" 70500).1
      = (checkRateLimit
          (fun k => if k = "posts" then some ⟨30, 60000⟩ else none) "posts" 70500).1 :=
  C9_cleanup_preserves_check _ "posts" 70000 70500 (by omega)

/-- C10: a denied `checkRateLimit` call leaves the store unchanged — the
count is not incremented and the reset time is not extended, so repeated
denied attempts never prolong the denial window. -/
theorem C10_denied_preserves_store (store : RateStore) (identifier : String) (now : Nat)
    (h : (checkRateLimit store identifier now).1.allowed = false) :
    (checkRateLimit store identifier now).2 = store := by
  rcases hrec : store identifier with _ | rec
  · simp [checkRateLimit, hrec] at h
  · by_cases hexp : now > rec.resetTime
    · simp [checkRateLimit, hrec, hexp] at h
    · by_cases hmax : rec.count ≥ SecurityConfig.RATE_LIMIT_MAX_REQUESTS
      · simp [checkRateLimit, hrec, hexp, hmax]
      · simp [checkRateLimit, hrec, hexp, hmax] at h

/-- Witness for C10: a saturated record is denied at time 10 and the
store is returned untouched. -/
theorem C10_denied_preserves_store_witness :
    (checkRateLimit (fun k => if k = "posts" then some ⟨30, 60000⟩ else none)
        "posts" 10).1.allowed = false ∧
    (checkRateLimit (fun k => if k = "posts" then some ⟨30, 60000⟩ else none)
        "posts" 10).2
      = (fun k => if k = "posts" then some ⟨30, 60000⟩ else none) :=
  ⟨by decide, C10_denied_preserves_store _ "posts" 10 (by decide)⟩

/-! ## C8 — auth bootstrap always clears the loading flag -/

theorem runActions_listener_keeps_cleared (trail : List AuthAction) :
    ∀ s : AuthState, s.isLoading = false → (∀ a ∈ trail, IsListenerAction a) →
      (runActions s trail).isLoading = false := by
  induction trail with
  | nil => intro s hs _; exact hs
  | cons a rest ih =>
    intro s hs htrail
    have ha := htrail a (List.mem_cons_self a rest)
    cases a with
    | setUser u =>
      exact ih (authReducer s (.setUser u)) rfl
        (fun x hx => htrail x (List.mem_cons_of_mem _ hx))
    | setLoading b => exact absurd ha (by simp [IsListenerAction])
    | clearError => exact absurd ha (by simp [IsListenerAction])
    | initAuthPending => exact absurd ha (by simp [IsListenerAction])
    | initAuthFulfilled u => exact absurd ha (by simp [IsListenerAction])
    | initAuthRejected m => exact absurd ha (by simp [IsListenerAction])
    | loginPending => exact absurd ha (by simp [IsListenerAction])
    | loginFulfilled u => exact absurd ha (by simp [IsListenerAction])
    | loginRejected m => exact absurd ha (by simp [IsListenerAction])
    | signupPending => exact absurd ha (by simp [IsListenerAction])
    | signupFulfilled u => exact absurd ha (by simp [IsListenerAction])
    | signupRejected m => exact absurd ha (by simp [IsListenerAction])
    | logoutFulfilled => exact absurd ha (by simp [IsListenerAction])

/-- C8: in every run of the auth bootstrap the loading flag ends up
cleared — on fulfilled and on rejected settlement of `initializeAuth`, and
in the remaining (hung) case because the 5-second failsafe timer fires and
forcibly clears it; subsequent auth-state-change listener dispatches keep
it cleared, so the app can never stay loading forever. -/
theorem C8_loading_always_clears (s0 : AuthState) (o : BootstrapOutcome)
    (failsafeFired : Bool) (trail : List AuthAction)
    (hhung : o = .hung → failsafeFired = true)
    (htrail : ∀ a ∈ trail, IsListenerAction a) :
    (runActions s0 (bootstrapActions o failsafeFired ++ trail)).isLoading = false := by
  rw [runActions, List.foldl_append]
  apply runActions_listener_keeps_cleared trail _ _ htrail
  cases o with
  | fulfilled u =>
    cases failsafeFired <;> simp [bootstrapActions, authReducer]
  | rejected m =>
    cases failsafeFired <;> simp [bootstrapActions, authReducer]
  | hung =>
    rw [hhung rfl]
    simp [bootstrapActions, authReducer]

/-- Witness for C8: the hung bootstrap with the failsafe firing, starting
from the initial (loading) state, with no listener events. -/
theorem C8_loading_always_clears_witness :
    (runActions initialAuthState (bootstrapActions .hung true ++ [])).isLoading = false :=
  C8_loading_always_clears initialAuthState .hung true []
    (fun _ => rfl) (fun a ha => absurd ha (List.not_mem_nil a))

/-! ## C6 — excerpt defaulting in the editor save path -/

set_option maxRecDepth 1000000 in
/-- C6: a post saved without a supplied excerpt gets the first 200
characters of its (trimmed) content as excerpt — in both the create and
the update branch of `handleSave` — and the end-to-end scenario (content
`"word ".repeat(250)`, no excerpt) produces a post whose excerpt is the
first 200 characters of the content and whose read time is 2. -/
theorem C6_excerpt_default (id title content excerpt featuredImage : String) (pub : Bool)
    (htitle : jsTrim title ≠ "") (hexcerpt : jsTrim excerpt = "") :
    (∃ inp, PostEditor.handleSaveCreateInput true title content excerpt featuredImage pub
        = some inp ∧ inp.excerpt = jsSubstring0 (jsTrim content) 200) ∧
    (∃ uinp, PostEditor.handleSaveUpdateInput true id title content excerpt featuredImage pub
        = some uinp ∧ uinp.excerpt = some (jsSubstring0 (jsTrim content) 200)) ∧
    editorScenario.map Post.excerpt = Except.ok (jsSubstring0 repeatWord250 200) ∧
    editorScenario.map Post.readTime = Except.ok 2 := by
  have hex : PostEditor.savedExcerpt excerpt content = jsSubstring0 (jsTrim content) 200 := by
    simp [PostEditor.savedExcerpt, hexcerpt, jsOrStr]
  refine ⟨?_, ?_, by decide, by decide⟩
  · have h1 : PostEditor.handleSaveCreateInput true title content excerpt featuredImage pub
        = some
          { title := jsTrim title
            content := jsTrim content
            excerpt := PostEditor.savedExcerpt excerpt content
            featuredImage := if featuredImage ≠ "" then some (jsTrim featuredImage) else none
            published := pub } := by
      simp [PostEditor.handleSaveCreateInput, htitle]
    exact ⟨_, h1, hex⟩
  · have h2 : PostEditor.handleSaveUpdateInput true id title content excerpt featuredImage pub
        = some
          { id := id
            title := some (jsTrim title)
            content := some (jsTrim content)
            excerpt := some (PostEditor.savedExcerpt excerpt content)
            featuredImage := if featuredImage ≠ "" then some (jsTrim featuredImage) else none
            published := some pub } := by
      simp [PostEditor.handleSaveUpdateInput, htitle]
    exact ⟨_, h2, congrArg some hex⟩

/-- Witness for C6: blank excerpt, nonblank title, concrete content. -/
theorem C6_excerpt_default_witness :
    (∃ inp, PostEditor.handleSaveCreateInput true "T" " hello world " "" "" false
        = some inp ∧ inp.excerpt = jsSubstring0 (jsTrim " hello world ") 200) ∧
    (∃ uinp, PostEditor.handleSaveUpdateInput true "p1" "T" " hello world " "" "" false
        = some uinp ∧ uinp.excerpt = some (jsSubstring0 (jsTrim " hello world ") 200)) ∧
    editorScenario.map Post.excerpt = Except.ok (jsSubstring0 repeatWord250 200) ∧
    editorScenario.map Post.readTime = Except.ok 2 :=
  C6_excerpt_default "p1" "T" " hello world " "" "" false (by decide) (by decide)

/-! ## C1 — error policy of the domain services -/

set_option maxRecDepth 10000 in
/-- C1 (amended): in the hardened service variant every decoration read
(`getLikesCount`, `getCommentsCount`, `checkUserLiked`,
`checkUserBookmarked`, `getComments`) turns any backend failure — a
rejected call or an error-field response — into its safe default (0 /
false / empty list), and every mutating operation propagates the failure
as a thrown mapped error.  In the plain variant the mutators equally
propagate (rethrowing the original error) and `checkUserBookmarked`
defaults to false, but `getLikesCount`, `getCommentsCount`,
`checkUserLiked` (outside the `PGRST116` no-row case) and `getComments`
rethrow instead of defaulting. -/
theorem C1_error_policy (pid uid cid aid : String) (store : RateStore) (now : Nat)
    (cin : CreatePostInput) (uin : UpdatePostInput) (cmt : CreateCommentInput) (author : User)
    (hpid : isValidUUID pid = true)
    (huid : isValidUUID uid = true)
    (hcid : isValidUUID cid = true)
    (haid : isValidUUID aid = true)
    (huinId : isValidUUID uin.id = true)
    (hcmtPid : isValidUUID cmt.postId = true)
    (hrlLike : (checkRateLimit store ("like-" ++ uid) now).1.allowed = true)
    (hrlComment : (checkRateLimit store ("comment-" ++ uid) now).1.allowed = true)
    (hrlBookmark : (checkRateLimit store ("bookmark-" ++ uid) now).1.allowed = true)
    (hrlCreate : (checkRateLimit store ("create-post-" ++ aid) now).1.allowed = true)
    (hvalPost : (validatePostInput
      { title := some cin.title, content := some cin.content, excerpt := some cin.excerpt }).valid
        = true)
    (hvalUpd : (validatePostInput
      { title := uin.title, content := uin.content, excerpt := uin.excerpt }).valid = true)
    (hvalCmt : (validateCommentInput cmt.content).valid = true) :
    -- hardened variant: decoration reads default on failure
    (∀ e, PostService.getLikesCount pid true (.error e) = .ok 0) ∧
    (∀ d e, PostService.getLikesCount pid true (.ok ⟨d, some e⟩) = .ok 0) ∧
    (∀ e, PostService.getCommentsCount pid true (.error e) = .ok 0) ∧
    (∀ d e, PostService.getCommentsCount pid true (.ok ⟨d, some e⟩) = .ok 0) ∧
    (∀ e, PostService.checkUserLiked pid uid true (.error e) = .ok false) ∧
    (∀ d e, PostService.checkUserLiked pid uid true (.ok ⟨d, some e⟩) = .ok false) ∧
    (∀ e, PostService.checkUserBookmarked pid uid true (.error e) = .ok false) ∧
    (∀ d e, PostService.checkUserBookmarked pid uid true (.ok ⟨d, some e⟩) = .ok false) ∧
    (∀ e bp, PostService.getComments pid true (.error e) bp = .ok []) ∧
    (∀ d e bp, PostService.getComments pid true (.ok ⟨d, some e⟩) bp = .ok []) ∧
    -- hardened variant: mutators propagate the mapped error
    (∀ e, PostService.createPost store now cin aid author true (fun _ => .error e)
      = .error (handleError e (some "post creation"))) ∧
    (∀ d e, PostService.createPost store now cin aid author true (fun _ => .ok ⟨d, some e⟩)
      = .error (handleError e (some "post creation"))) ∧
    (∀ e, PostService.updatePost uin true (fun _ => .error e)
      = .error (handleError e (some "post update"))) ∧
    (∀ d e, PostService.updatePost uin true (fun _ => .ok ⟨d, some e⟩)
      = .error (handleError e (some "post update"))) ∧
    (∀ e, PostService.deletePost pid true (.error e)
      = .error (handleError e (some "post deletion"))) ∧
    (∀ e, PostService.deletePost pid true (.ok ⟨(), some e⟩)
      = .error (handleError e (some "post deletion"))) ∧
    (∀ e, PostService.addLike store now pid uid true (.error e)
      = .error (handleError e (some "like"))) ∧
    (∀ e, PostService.addLike store now pid uid true (.ok ⟨(), some e⟩)
      = .error (handleError e (some "like"))) ∧
    (∀ e, PostService.removeLike pid uid true (.error e)
      = .error (handleError e (some "like removal"))) ∧
    (∀ e, PostService.removeLike pid uid true (.ok ⟨(), some e⟩)
      = .error (handleError e (some "like removal"))) ∧
    (∀ e, PostService.addBookmark store now pid uid true (.error e)
      = .error (handleError e (some "bookmark"))) ∧
    (∀ e, PostService.addBookmark store now pid uid true (.ok ⟨(), some e⟩)
      = .error (handleError e (some "bookmark"))) ∧
    (∀ e, PostService.removeBookmark pid uid true (.error e)
      = .error (handleError e (some "bookmark removal"))) ∧
    (∀ e, PostService.removeBookmark pid uid true (.ok ⟨(), some e⟩)
      = .error (handleError e (some "bookmark removal"))) ∧
    (∀ e, PostService.addComment store now cmt uid true (.error e)
      = .error (handleError e (some "comment"))) ∧
    (∀ d e, PostService.addComment store now cmt uid true (.ok ⟨d, some e⟩)
      = .error (handleError e (some "comment"))) ∧
    (∀ e, PostService.deleteComment cid true (.error e)
      = .error (handleError e (some "comment deletion"))) ∧
    (∀ e, PostService.deleteComment cid true (.ok ⟨(), some e⟩)
      = .error (handleError e (some "comment deletion"))) ∧
    -- plain variant: the four other decoration reads rethrow
    (∀ e, PostServiceV1.getLikesCount pid (.error e) = .error e) ∧
    (∀ d e, PostServiceV1.getLikesCount pid (.ok ⟨d, some e⟩) = .error e) ∧
    (∀ e, PostServiceV1.getCommentsCount pid (.error e) = .error e) ∧
    (∀ d e, PostServiceV1.getCommentsCount pid (.ok ⟨d, some e⟩) = .error e) ∧
    (∀ e pf, PostServiceV1.getComments pid (.error e) pf = .error e) ∧
    (∀ d e pf, PostServiceV1.getComments pid (.ok ⟨d, some e⟩) pf = .error e) ∧
    (∀ e, PostServiceV1.checkUserLiked pid uid (.error e) = .error e) ∧
    (∀ d e, PostServiceV1.checkUserLiked pid uid (.ok ⟨d, some e⟩)
      = if e.code = some "PGRST116" then .ok false else .error e) ∧
    (∀ e, PostServiceV1.checkUserBookmarked pid uid (.error e) = .ok false) ∧
    (∀ d e, PostServiceV1.checkUserBookmarked pid uid (.ok ⟨d, some e⟩) = .ok false) ∧
    -- plain variant: mutators propagate the original error
    (∀ e, PostServiceV1.createPost cin aid author (fun _ => .error e) = .error e) ∧
    (∀ d e, PostServiceV1.createPost cin aid author (fun _ => .ok ⟨d, some e⟩) = .error e) ∧
    (∀ e, PostServiceV1.updatePost uin (fun _ => .error e) = .error e) ∧
    (∀ d e, PostServiceV1.updatePost uin (fun _ => .ok ⟨d, some e⟩) = .error e) ∧
    (∀ e, PostServiceV1.deletePost pid (.error e) = .error e) ∧
    (∀ e, PostServiceV1.deletePost pid (.ok ⟨(), some e⟩) = .error e) ∧
    (∀ e, PostServiceV1.addLike pid uid (.error e) = .error e) ∧
    (∀ e, PostServiceV1.addLike pid uid (.ok ⟨(), some e⟩) = .error e) ∧
    (∀ e, PostServiceV1.removeLike pid uid (.error e) = .error e) ∧
    (∀ e, PostServiceV1.removeLike pid uid (.ok ⟨(), some e⟩) = .error e) ∧
    (∀ e, PostServiceV1.addBookmark pid uid (.error e) = .error e) ∧
    (∀ e, PostServiceV1.addBookmark pid uid (.ok ⟨(), some e⟩) = .error e) ∧
    (∀ e, PostServiceV1.removeBookmark pid uid (.error e) = .error e) ∧
    (∀ e, PostServiceV1.removeBookmark pid uid (.ok ⟨(), some e⟩) = .error e) ∧
    (∀ e, PostServiceV1.addComment cmt uid (.error e) = .error e) ∧
    (∀ d e, PostServiceV1.addComment cmt uid (.ok ⟨d, some e⟩) = .error e) ∧
    (∀ e, PostServiceV1.deleteComment cid (.error e) = .error e) ∧
    (∀ e, PostServiceV1.deleteComment cid (.ok ⟨(), some e⟩) = .error e) := by
  refine ⟨?_, ?_, ?_, ?_, ?_, ?_, ?_, ?_, ?_, ?_, ?_, ?_, ?_, ?_, ?_, ?_, ?_, ?_, ?_, ?_,
    ?_, ?_, ?_, ?_, ?_, ?_, ?_, ?_, ?_, ?_, ?_, ?_, ?_, ?_, ?_, ?_, ?_, ?_, ?_, ?_,
    ?_, ?_, ?_, ?_, ?_, ?_, ?_, ?_, ?_, ?_, ?_, ?_, ?_, ?_, ?_, ?_⟩
  all_goals intros
  all_goals first
  | rfl
  | simp [PostService.getLikesCount, hpid]
  | simp [PostService.getCommentsCount, hpid]
  | simp [PostService.checkUserLiked, hpid, huid]
  | simp [PostService.checkUserBookmarked, hpid, huid]
  | simp [PostService.getComments, hpid]
  | simp [PostService.createPost, haid, hrlCreate, hvalPost]
  | simp [PostService.updatePost, huinId, hvalUpd]
  | simp [PostService.deletePost, hpid]
  | simp [PostService.addLike, hpid, huid, hrlLike]
  | simp [PostService.removeLike, hpid, huid]
  | simp [PostService.addBookmark, hpid, huid, hrlBookmark]
  | simp [PostService.removeBookmark, hpid, huid]
  | simp [PostService.addComment, hcmtPid, huid, hvalCmt, hrlComment]
  | simp [PostService.deleteComment, hcid]
  | simp [PostServiceV1.getComments]
  | simp [PostServiceV1.createPost]
  | simp [PostServiceV1.updatePost]

/-- C1 counterexample: in the plain variant (`src/lib/postService.ts` as
named in the tree), `getLikesCount` on a failed backend call rethrows the
error instead of returning the safe default 0 — refuting the claim that
every decoration read swallows failures. -/
theorem C1_counterexample :
    PostServiceV1.getLikesCount "123e4567-e89b-12d3-a456-426614174000"
        (.error errNetwork) = .error errNetwork ∧
    PostServiceV1.getLikesCount "123e4567-e89b-12d3-a456-426614174000"
        (.error errNetwork) ≠ .ok 0 :=
  ⟨rfl, by decide⟩

set_option maxRecDepth 10000 in
/-- Witness for C1: concrete identifiers, fresh rate-limit store, concrete
inputs; a hardened read defaults, a hardened mutator throws the mapped
error, the plain read rethrows. -/
theorem C1_error_policy_witness :
    PostService.getLikesCount uuidA true (.error errNetwork) = .ok 0 ∧
    PostService.addLike (fun _ => none) 0 uuidA uuidB true (.error errNetwork)
      = .error (handleError errNetwork (some "like")) ∧
    PostServiceV1.getLikesCount uuidA (.error errNetwork) = .error errNetwork := by
  have h := C1_error_policy uuidA uuidB uuidA uuidB (fun _ => none) 0 cin0 uin0 cmt0
    editorUser (by decide) (by decide) (by decide) (by decide) (by decide) (by decide)
    (by decide) (by decide) (by decide) (by decide) (by decide) (by decide) (by decide)
  obtain ⟨h1, _, _, _, _, _, _, _, _, _, _, _, _, _, _, _, h17, _, _, _,
    _, _, _, _, _, _, _, _, h29, _⟩ := h
  exact ⟨h1 errNetwork, h17 errNetwork, h29 errNetwork⟩

/-! ## C2 — configuration gating -/

set_option maxRecDepth 10000 in
set_option maxHeartbeats 2000000 in
/-- C2 (amended): with invalid configuration the wrapper still constructs
a (non-null) client handle pointed at the placeholder endpoint, and every
domain service operation checks the configured flag before issuing any
backend call — the result never depends on the backend outcome.  Mutating
operations and `uploadImage` fail fast with a `ConfigurationError`, while
the read operations return their safe defaults (`[]` / `null` / 0 / false
/ zeros) instead of throwing. -/
theorem C2_configuration_gating (pid uid cid aid : String) (store : RateStore) (now : Nat)
    (cin : CreatePostInput) (uin : UpdatePostInput) (cmt : CreateCommentInput) (author : User)
    (hpid : isValidUUID pid = true)
    (huid : isValidUUID uid = true)
    (hcid : isValidUUID cid = true)
    (haid : isValidUUID aid = true)
    (huinId : isValidUUID uin.id = true)
    (hcmtPid : isValidUUID cmt.postId = true)
    (hrlLike : (checkRateLimit store ("like-" ++ uid) now).1.allowed = true)
    (hrlComment : (checkRateLimit store ("comment-" ++ uid) now).1.allowed = true)
    (hrlBookmark : (checkRateLimit store ("bookmark-" ++ uid) now).1.allowed = true)
    (hrlCreate : (checkRateLimit store ("create-post-" ++ aid) now).1.allowed = true)
    (hvalPost : (validatePostInput
      { title := some cin.title, content := some cin.content, excerpt := some cin.excerpt }).valid
        = true)
    (hvalUpd : (validatePostInput
      { title := uin.title, content := uin.content, excerpt := uin.excerpt }).valid = true)
    (hvalCmt : (validateCommentInput cmt.content).valid = true) :
    (∀ url key, mkSupabaseClient url key =
      if isSupabaseConfiguredOf url key then ⟨jsOrStr url "", jsOrStr key ""⟩
      else ⟨placeholderUrl, placeholderKey⟩) ∧
    (∀ file b publicUrl, PostService.uploadImage store now file false b publicUrl
      = .error (createAppError .CONFIGURATION_ERROR "Storage service is not configured" none)) ∧
    (∀ po b1 b2, PostService.getAllPosts po false b1 b2 = .ok []) ∧
    (∀ b1 b2, PostService.getPostById pid false b1 b2 = .ok none) ∧
    (∀ b, PostService.getPostsByAuthor aid false b = .ok []) ∧
    (∀ backend, PostService.createPost store now cin aid author false backend
      = .error (createAppError .CONFIGURATION_ERROR "Database service is not configured" none)) ∧
    (∀ backend, PostService.updatePost uin false backend
      = .error (createAppError .CONFIGURATION_ERROR "Database service is not configured" none)) ∧
    (∀ b, PostService.deletePost pid false b
      = .error (createAppError .CONFIGURATION_ERROR "Database service is not configured" none)) ∧
    (∀ b, PostService.addLike store now pid uid false b
      = .error (createAppError .CONFIGURATION_ERROR "Database service is not configured" none)) ∧
    (∀ b, PostService.removeLike pid uid false b
      = .error (createAppError .CONFIGURATION_ERROR "Database service is not configured" none)) ∧
    (∀ pid2 b, PostService.getLikesCount pid2 false b = .ok 0) ∧
    (∀ pid2 uid2 b, PostService.checkUserLiked pid2 uid2 false b = .ok false) ∧
    (∀ b, PostService.addComment store now cmt uid false b
      = .error (createAppError .CONFIGURATION_ERROR "Database service is not configured" none)) ∧
    (∀ pid2 b1 b2, PostService.getComments pid2 false b1 b2 = .ok []) ∧
    (∀ pid2 b, PostService.getCommentsCount pid2 false b = .ok 0) ∧
    (∀ b, PostService.deleteComment cid false b
      = .error (createAppError .CONFIGURATION_ERROR "Database service is not configured" none)) ∧
    (∀ uid2 b1 b2 b3, PostService.getUserStats uid2 false b1 b2 b3 = .ok ⟨0, 0, 0, 0⟩) ∧
    (∀ b, PostService.addBookmark store now pid uid false b
      = .error (createAppError .CONFIGURATION_ERROR "Database service is not configured" none)) ∧
    (∀ b, PostService.removeBookmark pid uid false b
      = .error (createAppError .CONFIGURATION_ERROR "Database service is not configured" none)) ∧
    (∀ pid2 uid2 b, PostService.checkUserBookmarked pid2 uid2 false b = .ok false) ∧
    (∀ uid2 b1 b2 b3, PostService.getUserBookmarks uid2 false b1 b2 b3 = .ok []) := by
  refine ⟨?_, ?_, ?_, ?_, ?_, ?_, ?_, ?_, ?_, ?_, ?_, ?_, ?_, ?_, ?_, ?_, ?_, ?_, ?_, ?_, ?_⟩
  · intro url key; rfl
  · intro file b publicUrl; rfl
  · intro po b1 b2; rfl
  · intro b1 b2; simp only [PostService.getPostById, hpid]; rfl
  · intro b; simp only [PostService.getPostsByAuthor, haid]; rfl
  · intro backend; simp only [PostService.createPost, haid, hrlCreate, hvalPost]; rfl
  · intro backend; simp only [PostService.updatePost, huinId, hvalUpd]; rfl
  · intro b; simp only [PostService.deletePost, hpid]; rfl
  · intro b; simp only [PostService.addLike, hpid, huid, hrlLike]; rfl
  · intro b; simp only [PostService.removeLike, hpid, huid]; rfl
  · intro pid2 b
    by_cases hv : isValidUUID pid2 <;> simp only [PostService.getLikesCount, hv] <;> rfl
  · intro pid2 uid2 b
    by_cases hv : isValidUUID pid2 <;> by_cases hv2 : isValidUUID uid2 <;>
        simp only [PostService.checkUserLiked, hv, hv2] <;> rfl
  · intro b; simp only [PostService.addComment, hcmtPid, huid, hvalCmt, hrlComment]; rfl
  · intro pid2 b1 b2
    by_cases hv : isValidUUID pid2 <;> simp only [PostService.getComments, hv] <;> rfl
  · intro pid2 b
    by_cases hv : isValidUUID pid2 <;> simp only [PostService.getCommentsCount, hv] <;> rfl
  · intro b; simp only [PostService.deleteComment, hcid]; rfl
  · intro uid2 b1 b2 b3
    by_cases hv : isValidUUID uid2 <;> simp only [PostService.getUserStats, hv] <;> rfl
  · intro b; simp only [PostService.addBookmark, hpid, huid, hrlBookmark]; rfl
  · intro b; simp only [PostService.removeBookmark, hpid, huid]; rfl
  · intro pid2 uid2 b
    by_cases hv : isValidUUID pid2 <;> by_cases hv2 : isValidUUID uid2 <;>
        simp only [PostService.checkUserBookmarked, hv, hv2] <;> rfl
  · intro uid2 b1 b2 b3
    by_cases hv : isValidUUID uid2 <;> simp only [PostService.getUserBookmarks, hv] <;> rfl

/-- C2 counterexample: with invalid configuration `getAllPosts` does not
fail fast with a `ConfigurationError` — it returns the empty list — so
"every domain service operation … fails fast by throwing a
ConfigurationError" is false as stated. -/
theorem C2_counterexample :
    PostService.getAllPosts true false (.ok ⟨some [], none⟩) (.ok ⟨some [], none⟩)
      = .ok [] ∧
    PostService.getAllPosts true false (.ok ⟨some [], none⟩) (.ok ⟨some [], none⟩)
      ≠ .error
        (createAppError .CONFIGURATION_ERROR "Database service is not configured" none) :=
  ⟨rfl, by decide⟩

set_option maxRecDepth 10000 in
/-- Witness for C2: concrete identifiers and inputs; the placeholder
client for missing env values, a read default and a mutator
ConfigurationError under invalid configuration. -/
theorem C2_configuration_gating_witness :
    mkSupabaseClient none none =
      (if isSupabaseConfiguredOf none none then ⟨jsOrStr none "", jsOrStr none ""⟩
       else ⟨placeholderUrl, placeholderKey⟩) ∧
    PostService.getAllPosts true false (.error errNetwork) (.error errNetwork) = .ok [] ∧
    PostService.addLike (fun _ => none) 0 uuidA uuidB false (.error errNetwork)
      = .error
        (createAppError .CONFIGURATION_ERROR "Database service is not configured" none) := by
  have h := C2_configuration_gating uuidA uuidB uuidA uuidB (fun _ => none) 0 cin0 uin0 cmt0
    editorUser (by decide) (by decide) (by decide) (by decide) (by decide) (by decide)
    (by decide) (by decide) (by decide) (by decide) (by decide) (by decide) (by decide)
  obtain ⟨h1, _, h3, _, _, _, _, _, h9, _⟩ := h
  exact ⟨h1 none none, h3 true (.error errNetwork) (.error errNetwork), h9 (.error errNetwork)⟩
